import Mathlib

/-!
Shallow embedding of the Computron/vomit x86 emulator CPU core
(src/x86/CPU.cpp, src/x86/interrupt.cpp, src/x86/186.cpp, src/8086/stack.c),
with theorems checking the natural-language specification against it.

Machine integers are modelled as `Nat` with explicit masking where the C++
code masks; physical memory is a byte map `Nat → Nat` (reads normalize each
cell to a byte, writes store masked bytes), multi-byte physical accesses are
little-endian exactly as the host `reinterpret_cast` loads/stores are on the
emulator's little-endian host.
-/

namespace Vomit

/-- Architectural exceptions thrown by the core (the `Exception` subclasses
of the source: `GeneralProtectionFault`, `NotPresent`, `StackFault`,
`InvalidTSS`, `PageFault(vector 14, error code, CR2 address)`,
`InvalidOpcode`, `BoundRangeExceeded`). -/
inductive Exn where
  | generalProtectionFault (code : Nat)
  | notPresent (code : Nat)
  | stackFault (code : Nat)
  | invalidTSS (code : Nat)
  | pageFault (code : Nat) (addr : Nat)
  | invalidOpcode
  | boundRangeExceeded
  deriving DecidableEq, Repr

/-- Vector numbers of the exceptions, per the architectural table
(spec section 4.6): #GP=13, #NP=11, #SS=12, #TS=10, #PF=14, #UD=6, #BR=5. -/
def Exn.vector : Exn → Nat
  | .generalProtectionFault _ => 13
  | .notPresent _ => 11
  | .stackFault _ => 12
  | .invalidTSS _ => 10
  | .pageFault _ _ => 14
  | .invalidOpcode => 6
  | .boundRangeExceeded => 5

/-- `CPU::MemoryAccessType`. -/
inductive AccessType where
  | read
  | write
  | execute
  | internalPointer
  deriving DecidableEq, Repr

/-! ### Page-table and control-register bit constants

Modelled from the spec: the `PageTableEntryFlags` / `PageFaultFlags` / `CR0`
enums live in a header that is not part of the sources; the spec fixes the
layout ("split linear into (dir:10, page:10, offset:12)", "#PF pushes an
error code formatted as: bit0 P, bit1 W, bit2 U, bit4 I-fetch", "If the
access is a write and either (CPL==3) or (CR0.WP==1)") and the bit positions
are the architectural ones (P=bit0, R/W=bit1, U/S=bit2, A=bit5, D=bit6;
CR0.PE=bit0, CR0.WP=bit16, CR0.PG=bit31). -/

def PageTableEntryFlags.Present : Nat := 0x01
def PageTableEntryFlags.ReadWrite : Nat := 0x02
def PageTableEntryFlags.UserSupervisor : Nat := 0x04
def PageTableEntryFlags.Accessed : Nat := 0x20
def PageTableEntryFlags.Dirty : Nat := 0x40

def PageFaultFlags.NotPresent : Nat := 0x00
def PageFaultFlags.ProtectionViolation : Nat := 0x01
def PageFaultFlags.Read : Nat := 0x00
def PageFaultFlags.Write : Nat := 0x02
def PageFaultFlags.SupervisorMode : Nat := 0x00
def PageFaultFlags.UserMode : Nat := 0x04
def PageFaultFlags.InstructionFetch : Nat := 0x10

def CR0.PE : Nat := 0x1
def CR0.WP : Nat := 0x10000
def CR0.PG : Nat := 0x80000000

/-- The slice of CPU state exercised by linear-to-physical translation
(`CPU::translate_address*`) and the straddling `read_memory`/`write_memory`
paths: flat RAM (`m_memory`, `m_memory_size`), CR0/CR2/CR3, the current
privilege level and the A20 gate. -/
structure PagingCPU where
  mem : Nat → Nat
  memSize : Nat
  cr0 : Nat
  cr2 : Nat
  cr3 : Nat
  cpl : Nat
  a20Enabled : Bool

def PagingCPU.getPE (s : PagingCPU) : Bool := s.cr0 &&& CR0.PE != 0
def PagingCPU.getPG (s : PagingCPU) : Bool := s.cr0 &&& CR0.PG != 0

/-- Modelled from the spec: `a20_mask()` (header not in the sources) —
"Model as a mask ANDed into every physical address; bit 20 cleared when A20
is disabled". -/
def PagingCPU.a20Mask (s : PagingCPU) : Nat :=
  if s.a20Enabled then 0xFFFFFFFF else 0xFFEFFFFF

/-- One RAM byte (cells are normalized to a byte on read). -/
def PagingCPU.byteAt (s : PagingCPU) (a : Nat) : Nat := s.mem a % 256

/-- `CPU::read_physical_memory<u8>`: reads outside physical memory return 0
(the memory-provider dispatch is omitted: no provider is registered in the
modelled configuration, so reads fall through to the flat RAM array). -/
def readPhys8 (s : PagingCPU) (a : Nat) : Nat :=
  if a < s.memSize then s.byteAt a else 0

/-- `CPU::read_physical_memory<u16>`: a little-endian host load of two RAM
bytes; the bounds check tests the start address, as the source does. -/
def readPhys16 (s : PagingCPU) (a : Nat) : Nat :=
  if a < s.memSize then s.byteAt a + 256 * s.byteAt (a + 1) else 0

/-- `CPU::read_physical_memory<u32>`: a little-endian host load of four RAM
bytes; the bounds check tests the start address, as the source does. -/
def readPhys32 (s : PagingCPU) (a : Nat) : Nat :=
  if a < s.memSize then
    s.byteAt a + 256 * s.byteAt (a + 1) + 65536 * s.byteAt (a + 2) +
      16777216 * s.byteAt (a + 3)
  else 0

/-- `CPU::write_physical_memory<u32>`: writes outside physical memory are
dropped; otherwise a little-endian host store of four bytes. -/
def writePhys32 (s : PagingCPU) (a : Nat) (v : Nat) : PagingCPU :=
  if a < s.memSize then
    { s with mem := fun x =>
        if x = a then v &&& 0xff
        else if x = a + 1 then (v >>> 8) &&& 0xff
        else if x = a + 2 then (v >>> 16) &&& 0xff
        else if x = a + 3 then (v >>> 24) &&& 0xff
        else s.mem x }
  else s

/-- `CPU::write_physical_memory<u16>`: writes outside physical memory are
dropped; otherwise a little-endian host store of two bytes. -/
def writePhys16 (s : PagingCPU) (a : Nat) (v : Nat) : PagingCPU :=
  if a < s.memSize then
    { s with mem := fun x =>
        if x = a then v &&& 0xff
        else if x = a + 1 then (v >>> 8) &&& 0xff
        else s.mem x }
  else s

/-- `CPU::write_physical_memory<u8>`. -/
def writePhys8 (s : PagingCPU) (a : Nat) (v : Nat) : PagingCPU :=
  if a < s.memSize then
    { s with mem := fun x => if x = a then v &&& 0xff else s.mem x }
  else s

/-- `inUserMode` as computed at the top of
`CPU::translate_address_slow_case`: `effectiveCPL == 0xff` means "use the
current CPL". -/
def inUserMode (s : PagingCPU) (effectiveCPL : Nat) : Bool :=
  if effectiveCPL == 0xff then s.cpl == 3 else effectiveCPL == 3

/-- `makePFErrorCode` (src/x86/CPU.cpp line 1180). -/
def makePFErrorCode (flags : Nat) (accessType : AccessType) (inUser : Bool) : Nat :=
  flags
    ||| (if accessType = .write then PageFaultFlags.Write else PageFaultFlags.Read)
    ||| (if inUser then PageFaultFlags.UserMode else PageFaultFlags.SupervisorMode)
    ||| (if accessType = .execute then PageFaultFlags.InstructionFetch else 0)

/-- The PDE address for a linear address: `CR3 + dir * sizeof(u32)`. -/
def pdeAddrOf (s : PagingCPU) (lin : Nat) : Nat :=
  s.cr3 + ((lin >>> 22) &&& 0x3FF) * 4

/-- The PTE address for a linear address:
`(PDE & 0xfffff000) + page * sizeof(u32)`. -/
def pteAddrOf (s : PagingCPU) (lin : Nat) : Nat :=
  (readPhys32 s (pdeAddrOf s lin) &&& 0xfffff000) + ((lin >>> 12) &&& 0x3FF) * 4

/-- `CPU::translate_address_slow_case` (src/x86/CPU.cpp line 1218).
Returns either the physical address or the thrown page-fault exception,
paired with the post-state. The `throw PageFault(...)` calls are inlined:
`CPU::PageFault` (line 1188) loads CR2 with the faulting linear address and
builds `Exception(0xe, error_code, linear, "Page fault")`. On success the
Accessed (and, for writes, Dirty) bits are written back. -/
def translate_address_slow_case (s : PagingCPU) (lin : Nat) (t : AccessType)
    (effectiveCPL : Nat) : Except Exn Nat × PagingCPU :=
  let offset := lin &&& 0xFFF
  let pdeAddress := pdeAddrOf s lin
  let pageDirectoryEntry := readPhys32 s pdeAddress
  let pteAddress := pteAddrOf s lin
  let pageTableEntry := readPhys32 s pteAddress
  let inUser := inUserMode s effectiveCPL
  if pageDirectoryEntry &&& PageTableEntryFlags.Present = 0 then
    (.error (.pageFault (makePFErrorCode PageFaultFlags.NotPresent t inUser) lin),
     { s with cr2 := lin })
  else if pageTableEntry &&& PageTableEntryFlags.Present = 0 then
    (.error (.pageFault (makePFErrorCode PageFaultFlags.NotPresent t inUser) lin),
     { s with cr2 := lin })
  else if inUser ∧ pageDirectoryEntry &&& PageTableEntryFlags.UserSupervisor = 0 then
    (.error (.pageFault (makePFErrorCode PageFaultFlags.ProtectionViolation t inUser) lin),
     { s with cr2 := lin })
  else if inUser ∧ pageTableEntry &&& PageTableEntryFlags.UserSupervisor = 0 then
    (.error (.pageFault (makePFErrorCode PageFaultFlags.ProtectionViolation t inUser) lin),
     { s with cr2 := lin })
  else if (inUser ∨ s.cr0 &&& CR0.WP ≠ 0) ∧ t = .write ∧
      pageDirectoryEntry &&& PageTableEntryFlags.ReadWrite = 0 then
    (.error (.pageFault (makePFErrorCode PageFaultFlags.ProtectionViolation t inUser) lin),
     { s with cr2 := lin })
  else if (inUser ∨ s.cr0 &&& CR0.WP ≠ 0) ∧ t = .write ∧
      pageTableEntry &&& PageTableEntryFlags.ReadWrite = 0 then
    (.error (.pageFault (makePFErrorCode PageFaultFlags.ProtectionViolation t inUser) lin),
     { s with cr2 := lin })
  else
    let pte1 := if t = .write then pageTableEntry ||| PageTableEntryFlags.Dirty
                else pageTableEntry
    let pde1 := pageDirectoryEntry ||| PageTableEntryFlags.Accessed
    let pte2 := pte1 ||| PageTableEntryFlags.Accessed
    let s1 := writePhys32 s pdeAddress pde1
    let s2 := writePhys32 s1 pteAddress pte2
    (.ok ((pte2 &&& 0xfffff000) ||| offset), s2)

/-- `CPU::translate_address` (src/x86/CPU.cpp line 1173): identity when
PE=0 or PG=0. -/
def translate_address (s : PagingCPU) (lin : Nat) (t : AccessType)
    (effectiveCPL : Nat) : Except Exn Nat × PagingCPU :=
  if !s.getPE || !s.getPG then (.ok lin, s)
  else translate_address_slow_case s lin t effectiveCPL

/-- Modelled from the spec: `weld<u16>` (Common.h is not in the sources) —
"composition uses little-endian byte order", so the second argument is the
low byte. -/
def weld16 (hi lo : Nat) : Nat := (hi <<< 8) ||| lo

/-- Modelled from the spec: `weld<u32>` — joins two 16-bit halves,
low half second. -/
def weld32 (hi lo : Nat) : Nat := (hi <<< 16) ||| lo

/-- `CPU::read_memory<u8>` (src/x86/CPU.cpp line 1428): translate, apply the
A20 mask, read physical memory. A byte never straddles a page. -/
def read_memory8 (s : PagingCPU) (lin : Nat) (t : AccessType)
    (effectiveCPL : Nat) : Except Exn Nat × PagingCPU :=
  match translate_address s lin t effectiveCPL with
  | (.error e, s') => (.error e, s')
  | (.ok phys, s') => (.ok (readPhys8 s' (phys &&& s'.a20Mask)), s')

/-- `CPU::read_memory<u16>`: a 2-byte access straddling a page boundary with
paging on is decomposed into byte reads welded little-endian. -/
def read_memory16 (s : PagingCPU) (lin : Nat) (t : AccessType)
    (effectiveCPL : Nat) : Except Exn Nat × PagingCPU :=
  if s.getPG ∧ lin &&& 0xfffff000 ≠ (lin + 1) &&& 0xfffff000 then
    match read_memory8 s lin t effectiveCPL with
    | (.error e, s') => (.error e, s')
    | (.ok b1, s1) =>
      match read_memory8 s1 (lin + 1) t effectiveCPL with
      | (.error e, s') => (.error e, s')
      | (.ok b2, s2) => (.ok (weld16 b2 b1), s2)
  else
    match translate_address s lin t effectiveCPL with
    | (.error e, s') => (.error e, s')
    | (.ok phys, s') => (.ok (readPhys16 s' (phys &&& s'.a20Mask)), s')

/-- `CPU::read_memory<u32>`: a 4-byte access straddling a page boundary with
paging on is decomposed into byte reads welded little-endian. -/
def read_memory32 (s : PagingCPU) (lin : Nat) (t : AccessType)
    (effectiveCPL : Nat) : Except Exn Nat × PagingCPU :=
  if s.getPG ∧ lin &&& 0xfffff000 ≠ (lin + 3) &&& 0xfffff000 then
    match read_memory8 s lin t effectiveCPL with
    | (.error e, s') => (.error e, s')
    | (.ok b1, s1) =>
      match read_memory8 s1 (lin + 1) t effectiveCPL with
      | (.error e, s') => (.error e, s')
      | (.ok b2, s2) =>
        match read_memory8 s2 (lin + 2) t effectiveCPL with
        | (.error e, s') => (.error e, s')
        | (.ok b3, s3) =>
          match read_memory8 s3 (lin + 3) t effectiveCPL with
          | (.error e, s') => (.error e, s')
          | (.ok b4, s4) => (.ok (weld32 (weld16 b4 b3) (weld16 b2 b1)), s4)
  else
    match translate_address s lin t effectiveCPL with
    | (.error e, s') => (.error e, s')
    | (.ok phys, s') => (.ok (readPhys32 s' (phys &&& s'.a20Mask)), s')

/-- `CPU::write_memory<u8>` (src/x86/CPU.cpp line 1525): translate for
write, apply the A20 mask, write physical memory. -/
def write_memory8 (s : PagingCPU) (lin : Nat) (v : Nat)
    (effectiveCPL : Nat) : Except Exn Unit × PagingCPU :=
  match translate_address s lin .write effectiveCPL with
  | (.error e, s') => (.error e, s')
  | (.ok phys, s') => (.ok (), writePhys8 s' (phys &&& s'.a20Mask) v)

/-- `CPU::write_memory<u16>` (src/x86/CPU.cpp line 1537): a straddling
2-byte write with paging on is decomposed into byte writes, low byte at the
lowest address. -/
def write_memory16 (s : PagingCPU) (lin : Nat) (v : Nat)
    (effectiveCPL : Nat) : Except Exn Unit × PagingCPU :=
  if s.getPG ∧ lin &&& 0xfffff000 ≠ (lin + 1) &&& 0xfffff000 then
    match write_memory8 s lin (v &&& 0xff) effectiveCPL with
    | (.error e, s') => (.error e, s')
    | (.ok _, s1) => write_memory8 s1 (lin + 1) ((v >>> 8) &&& 0xff) effectiveCPL
  else
    match translate_address s lin .write effectiveCPL with
    | (.error e, s') => (.error e, s')
    | (.ok phys, s') => (.ok (), writePhys16 s' (phys &&& s'.a20Mask) v)

/-- `CPU::write_memory<u32>`: a straddling 4-byte write with paging on is
decomposed into byte writes, low byte at the lowest address. -/
def write_memory32 (s : PagingCPU) (lin : Nat) (v : Nat)
    (effectiveCPL : Nat) : Except Exn Unit × PagingCPU :=
  if s.getPG ∧ lin &&& 0xfffff000 ≠ (lin + 3) &&& 0xfffff000 then
    match write_memory8 s lin (v &&& 0xff) effectiveCPL with
    | (.error e, s') => (.error e, s')
    | (.ok _, s1) =>
      match write_memory8 s1 (lin + 1) ((v >>> 8) &&& 0xff) effectiveCPL with
      | (.error e, s') => (.error e, s')
      | (.ok _, s2) =>
        match write_memory8 s2 (lin + 2) ((v >>> 16) &&& 0xff) effectiveCPL with
        | (.error e, s') => (.error e, s')
        | (.ok _, s3) => write_memory8 s3 (lin + 3) ((v >>> 24) &&& 0xff) effectiveCPL
  else
    match translate_address s lin .write effectiveCPL with
    | (.error e, s') => (.error e, s')
    | (.ok phys, s') =>
      (.ok (), writePhys32 s' (phys &&& s'.a20Mask) v)

/-! ### Generic bit-level helper lemmas -/

theorem lor_land_absorb (x m : Nat) : (x ||| m) &&& m = m := by
  apply Nat.eq_of_testBit_eq
  intro i
  simp only [Nat.testBit_lor, Nat.testBit_land]
  cases hx : x.testBit i <;> cases hm : m.testBit i <;> simp

theorem lor_land_of_disjoint (x a b : Nat) (h : a &&& b = 0) :
    (x ||| a) &&& b = x &&& b := by
  apply Nat.eq_of_testBit_eq
  intro i
  have hab : (a &&& b).testBit i = false := by rw [h]; simp
  rw [Nat.testBit_land] at hab
  simp only [Nat.testBit_lor, Nat.testBit_land]
  cases hx : x.testBit i <;> cases ha : a.testBit i <;>
    cases hb : b.testBit i <;> simp_all

theorem and_255_eq_mod (x : Nat) : x &&& 0xff = x % 256 := by
  have h := Nat.and_pow_two_sub_one_eq_mod x 8
  norm_num at h
  exact h

/-! ### Physical-memory access lemmas -/

theorem readPhys32_lt (s : PagingCPU) (a : Nat) : readPhys32 s a < 4294967296 := by
  unfold readPhys32 PagingCPU.byteAt
  split
  · have h0 := Nat.mod_lt (s.mem a) (show 0 < 256 by norm_num)
    have h1 := Nat.mod_lt (s.mem (a + 1)) (show 0 < 256 by norm_num)
    have h2 := Nat.mod_lt (s.mem (a + 2)) (show 0 < 256 by norm_num)
    have h3 := Nat.mod_lt (s.mem (a + 3)) (show 0 < 256 by norm_num)
    omega
  · norm_num

theorem iteElse {c : Prop} [Decidable c] {α : Sort u} {a b : α} (h : ¬c) :
    (if c then a else b) = b := if_neg h

theorem readPhys32_of_oob (s : PagingCPU) (a : Nat) (h : ¬a < s.memSize) :
    readPhys32 s a = 0 := by
  unfold readPhys32
  rw [if_neg h]

theorem readPhys32_present_in_bounds (s : PagingCPU) (a : Nat)
    (h : readPhys32 s a &&& PageTableEntryFlags.Present ≠ 0) : a < s.memSize := by
  by_contra hc
  rw [readPhys32_of_oob s a hc] at h
  simp [PageTableEntryFlags.Present] at h

theorem writePhys32_memSize (s : PagingCPU) (a v : Nat) :
    (writePhys32 s a v).memSize = s.memSize := by
  unfold writePhys32
  split <;> rfl

theorem writePhys32_cr2 (s : PagingCPU) (a v : Nat) :
    (writePhys32 s a v).cr2 = s.cr2 := by
  unfold writePhys32
  split <;> rfl

theorem writePhys32_mem_untouched (s : PagingCPU) (b v x : Nat)
    (h : x < b ∨ b + 3 < x) : (writePhys32 s b v).mem x = s.mem x := by
  unfold writePhys32
  split
  · dsimp only
    rw [iteElse (by omega), iteElse (by omega), iteElse (by omega), iteElse (by omega)]
  · rfl

theorem writePhys32_mem_at (s : PagingCPU) (a v : Nat) (ha : a < s.memSize) :
    (writePhys32 s a v).mem a = v &&& 0xff ∧
    (writePhys32 s a v).mem (a + 1) = (v >>> 8) &&& 0xff ∧
    (writePhys32 s a v).mem (a + 2) = (v >>> 16) &&& 0xff ∧
    (writePhys32 s a v).mem (a + 3) = (v >>> 24) &&& 0xff := by
  unfold writePhys32
  rw [if_pos ha]
  refine ⟨?_, ?_, ?_, ?_⟩ <;> dsimp only
  · rw [if_pos rfl]
  · rw [iteElse (by omega), if_pos rfl]
  · rw [iteElse (by omega), iteElse (by omega), if_pos rfl]
  · rw [iteElse (by omega), iteElse (by omega), iteElse (by omega), if_pos rfl]

theorem readPhys32_writePhys32_same (s : PagingCPU) (a v : Nat)
    (ha : a < s.memSize) (hv : v < 4294967296) :
    readPhys32 (writePhys32 s a v) a = v := by
  have p8 : (2 : Nat) ^ 8 = 256 := by norm_num
  have p16 : (2 : Nat) ^ 16 = 65536 := by norm_num
  have p24 : (2 : Nat) ^ 24 = 16777216 := by norm_num
  obtain ⟨h0, h1, h2, h3⟩ := writePhys32_mem_at s a v ha
  unfold readPhys32 PagingCPU.byteAt
  rw [writePhys32_memSize, if_pos ha, h0, h1, h2, h3]
  simp only [and_255_eq_mod, Nat.shiftRight_eq_div_pow, p8, p16, p24]
  omega

theorem readPhys32_writePhys32_disjoint (s : PagingCPU) (a b v : Nat)
    (h : a + 4 ≤ b ∨ b + 4 ≤ a) :
    readPhys32 (writePhys32 s b v) a = readPhys32 s a := by
  unfold readPhys32 PagingCPU.byteAt
  rw [writePhys32_memSize,
    writePhys32_mem_untouched s b v a (by omega),
    writePhys32_mem_untouched s b v (a + 1) (by omega),
    writePhys32_mem_untouched s b v (a + 2) (by omega),
    writePhys32_mem_untouched s b v (a + 3) (by omega)]

/-- Shared lemma: with PE and PG set, a byte read whose PDE is not present,
or whose PDE is present but whose PTE is not, returns the thrown #PF with
the not-present error code, and the post-state has CR2 loaded with the
faulting linear address. -/
theorem read_memory8_nonpresent (s : PagingCPU) (lin ecpl : Nat)
    (hpe : s.getPE = true) (hpg : s.getPG = true)
    (h : readPhys32 s (pdeAddrOf s lin) &&& PageTableEntryFlags.Present = 0 ∨
      (readPhys32 s (pdeAddrOf s lin) &&& PageTableEntryFlags.Present ≠ 0 ∧
       readPhys32 s (pteAddrOf s lin) &&& PageTableEntryFlags.Present = 0)) :
    read_memory8 s lin .read ecpl =
      (.error (.pageFault
          (makePFErrorCode PageFaultFlags.NotPresent .read (inUserMode s ecpl)) lin),
        { s with cr2 := lin }) := by
  unfold read_memory8 translate_address
  rw [hpe, hpg]
  simp only [Bool.not_true, Bool.or_self, Bool.false_eq_true, if_false]
  unfold translate_address_slow_case
  dsimp only
  rcases h with h1 | ⟨h1, h2⟩
  · rw [if_pos h1]
  · rw [if_neg h1, if_pos h2]

/-! ### Claim C1 -/

theorem makePF_np_read (u : Bool) :
    makePFErrorCode PageFaultFlags.NotPresent .read u = if u then 4 else 0 := by
  cases u <;> rfl

/-- C1: with paging enabled, a byte read at a linear address whose PDE is
not present — or whose PDE is present but whose PTE is not — raises #PF
(vector 14) whose error code has the Present bit clear and the Write bit
clear, with the User bit set iff the effective privilege is user mode, and
CR2 is loaded with exactly the faulting linear address. -/
theorem c1_nonpresent_page_entry_read_faults (s : PagingCPU) (lin ecpl : Nat)
    (hpe : s.getPE = true) (hpg : s.getPG = true)
    (h : readPhys32 s (pdeAddrOf s lin) &&& PageTableEntryFlags.Present = 0 ∨
      (readPhys32 s (pdeAddrOf s lin) &&& PageTableEntryFlags.Present ≠ 0 ∧
       readPhys32 s (pteAddrOf s lin) &&& PageTableEntryFlags.Present = 0)) :
    read_memory8 s lin .read ecpl =
      (.error (.pageFault
          (makePFErrorCode PageFaultFlags.NotPresent .read (inUserMode s ecpl)) lin),
        { s with cr2 := lin }) ∧
    (Exn.pageFault
        (makePFErrorCode PageFaultFlags.NotPresent .read (inUserMode s ecpl)) lin).vector
      = 14 ∧
    makePFErrorCode PageFaultFlags.NotPresent .read (inUserMode s ecpl) &&& 0x1 = 0 ∧
    makePFErrorCode PageFaultFlags.NotPresent .read (inUserMode s ecpl) &&& 0x2 = 0 ∧
    (makePFErrorCode PageFaultFlags.NotPresent .read (inUserMode s ecpl) &&& 0x4 ≠ 0 ↔
      inUserMode s ecpl = true) := by
  refine ⟨read_memory8_nonpresent s lin ecpl hpe hpg h, rfl, ?_, ?_, ?_⟩
  · rw [makePF_np_read]; cases inUserMode s ecpl <;> decide
  · rw [makePF_np_read]; cases inUserMode s ecpl <;> decide
  · rw [makePF_np_read]; cases hu : inUserMode s ecpl <;> simp
/-! The two concrete configurations for the C1 witness: one with a
non-present PDE read in supervisor mode, one with a present PDE and a
non-present PTE read in user mode. -/

def c1CPUa : PagingCPU :=
  { mem := fun _ => 0, memSize := 0x100000, cr0 := 0x80000001, cr2 := 0,
    cr3 := 0x2000, cpl := 0, a20Enabled := true }

def c1CPUb : PagingCPU :=
  { mem := fun a => if a = 0x2000 then 0x27 else if a = 0x2001 then 0x30 else 0,
    memSize := 0x100000, cr0 := 0x80000001, cr2 := 0, cr3 := 0x2000,
    cpl := 3, a20Enabled := true }

theorem c1_nonpresent_page_entry_read_faults_witness :
    read_memory8 c1CPUa 0x400000 .read 0xff =
      (.error (.pageFault 0 0x400000), { c1CPUa with cr2 := 0x400000 }) ∧
    read_memory8 c1CPUb 0x1000 .read 0xff =
      (.error (.pageFault 4 0x1000), { c1CPUb with cr2 := 0x1000 }) := by
  constructor
  · have e : makePFErrorCode PageFaultFlags.NotPresent .read (inUserMode c1CPUa 0xff) = 0 := by
      decide
    exact e ▸ (c1_nonpresent_page_entry_read_faults c1CPUa 0x400000 0xff (by decide)
      (by decide) (Or.inl (by decide))).1
  · have e : makePFErrorCode PageFaultFlags.NotPresent .read (inUserMode c1CPUb 0xff) = 4 := by
      decide
    exact e ▸ (c1_nonpresent_page_entry_read_faults c1CPUb 0x1000 0xff (by decide)
      (by decide) (Or.inr ⟨by decide, by decide⟩)).1

/-! ### Claim C6 -/

/-- C6: the Accessed bit is written back on both the PDE and the PTE, and
the Dirty bit on the PTE, exactly when a slow-case translation succeeds:
a faulting translation leaves RAM (and hence the page tables) unchanged,
and a successful one writes back PDE|A and PTE|A (PTE|D|A for a write);
Dirty is set only for write accesses — for any other access the Dirty bit
read back equals the one that was already stored. -/
theorem c6_accessed_dirty_writeback (s : PagingCPU) (lin : Nat) (t : AccessType)
    (ecpl : Nat) :
    (∀ e s', translate_address_slow_case s lin t ecpl = (.error e, s') →
      s'.mem = s.mem) ∧
    (∀ p s', translate_address_slow_case s lin t ecpl = (.ok p, s') →
      (pdeAddrOf s lin + 4 ≤ pteAddrOf s lin ∨ pteAddrOf s lin + 4 ≤ pdeAddrOf s lin) →
      readPhys32 s' (pdeAddrOf s lin) =
        readPhys32 s (pdeAddrOf s lin) ||| PageTableEntryFlags.Accessed ∧
      readPhys32 s' (pteAddrOf s lin) =
        (if t = .write then readPhys32 s (pteAddrOf s lin) ||| PageTableEntryFlags.Dirty
         else readPhys32 s (pteAddrOf s lin)) ||| PageTableEntryFlags.Accessed ∧
      readPhys32 s' (pdeAddrOf s lin) &&& PageTableEntryFlags.Accessed ≠ 0 ∧
      readPhys32 s' (pteAddrOf s lin) &&& PageTableEntryFlags.Accessed ≠ 0 ∧
      (t = .write → readPhys32 s' (pteAddrOf s lin) &&& PageTableEntryFlags.Dirty ≠ 0) ∧
      (t ≠ .write → readPhys32 s' (pteAddrOf s lin) &&& PageTableEntryFlags.Dirty =
        readPhys32 s (pteAddrOf s lin) &&& PageTableEntryFlags.Dirty)) := by
  have h32 : (4294967296 : Nat) = 2 ^ 32 := by norm_num
  constructor
  · intro e s' hEq
    unfold translate_address_slow_case at hEq
    dsimp only at hEq
    split_ifs at hEq <;>
      rw [Prod.mk.injEq] at hEq <;>
      first
        | exact Except.noConfusion hEq.1
        | rw [← hEq.2]
  · intro p s' hEq hdisj
    unfold translate_address_slow_case at hEq
    dsimp only at hEq
    have hbase :
        ∀ pteV, pteV < 4294967296 →
        writePhys32 (writePhys32 s (pdeAddrOf s lin)
            (readPhys32 s (pdeAddrOf s lin) ||| PageTableEntryFlags.Accessed))
            (pteAddrOf s lin) pteV = s' →
        ¬readPhys32 s (pdeAddrOf s lin) &&& PageTableEntryFlags.Present = 0 →
        ¬readPhys32 s (pteAddrOf s lin) &&& PageTableEntryFlags.Present = 0 →
        readPhys32 s' (pdeAddrOf s lin) =
          readPhys32 s (pdeAddrOf s lin) ||| PageTableEntryFlags.Accessed ∧
        readPhys32 s' (pteAddrOf s lin) = pteV := by
      intro pteV hLt hs h1 h2
      have hpdeIn : pdeAddrOf s lin < s.memSize :=
        readPhys32_present_in_bounds s _ h1
      have hpteIn : pteAddrOf s lin < s.memSize :=
        readPhys32_present_in_bounds s _ h2
      have hpde1Lt : readPhys32 s (pdeAddrOf s lin) ||| PageTableEntryFlags.Accessed
          < 4294967296 := by
        rw [h32]
        exact Nat.or_lt_two_pow (h32 ▸ readPhys32_lt s (pdeAddrOf s lin)) (by decide)
      constructor
      · rw [← hs]
        rw [readPhys32_writePhys32_disjoint _ _ _ _ hdisj]
        exact readPhys32_writePhys32_same s _ _ hpdeIn hpde1Lt
      · rw [← hs]
        refine readPhys32_writePhys32_same _ _ _ ?_ hLt
        rw [writePhys32_memSize]
        exact hpteIn
    have hpteLt : readPhys32 s (pteAddrOf s lin) < 4294967296 := readPhys32_lt s _
    split_ifs at hEq with h1 h2 h3 h4 h5 h6 h7
    · rw [Prod.mk.injEq] at hEq
      exact Except.noConfusion hEq.1
    · rw [Prod.mk.injEq] at hEq
      exact Except.noConfusion hEq.1
    · rw [Prod.mk.injEq] at hEq
      exact Except.noConfusion hEq.1
    · rw [Prod.mk.injEq] at hEq
      exact Except.noConfusion hEq.1
    · rw [Prod.mk.injEq] at hEq
      exact Except.noConfusion hEq.1
    · rw [Prod.mk.injEq] at hEq
      exact Except.noConfusion hEq.1
    · -- success, write access
      rw [Prod.mk.injEq] at hEq
      obtain ⟨hrd, hrt⟩ := hbase
        (readPhys32 s (pteAddrOf s lin) ||| PageTableEntryFlags.Dirty |||
          PageTableEntryFlags.Accessed)
        (by
          rw [h32]
          refine Nat.or_lt_two_pow ?_ (by decide)
          exact Nat.or_lt_two_pow (h32 ▸ hpteLt) (by decide))
        hEq.2 h1 h2
      refine ⟨hrd, ?_, ?_, ?_, ?_, ?_⟩
      · rw [if_pos h7]
        exact hrt
      · rw [hrd, lor_land_absorb]
        decide
      · rw [hrt, lor_land_absorb]
        decide
      · intro _
        rw [hrt, lor_land_of_disjoint _ _ _ (by decide), lor_land_absorb]
        decide
      · intro ht
        exact absurd h7 ht
    · -- success, non-write access
      rw [Prod.mk.injEq] at hEq
      obtain ⟨hrd, hrt⟩ := hbase
        (readPhys32 s (pteAddrOf s lin) ||| PageTableEntryFlags.Accessed)
        (by
          rw [h32]
          exact Nat.or_lt_two_pow (h32 ▸ hpteLt) (by decide))
        hEq.2 h1 h2
      refine ⟨hrd, ?_, ?_, ?_, ?_, ?_⟩
      · rw [if_neg h7]
        exact hrt
      · rw [hrd, lor_land_absorb]
        decide
      · rw [hrt, lor_land_absorb]
        decide
      · intro ht
        exact absurd ht h7
      · intro _
        rw [hrt, lor_land_of_disjoint _ _ _ (by decide)]

/-- C6 witness configuration: a successful supervisor write through a
present PDE (0x3027, A already set) and a present PTE (0x4007, A and D both
clear). -/
def c6CPU : PagingCPU :=
  { mem := fun a =>
      if a = 0x2000 then 0x27 else if a = 0x2001 then 0x30
      else if a = 0x3004 then 0x07 else if a = 0x3005 then 0x40 else 0,
    memSize := 0x100000, cr0 := 0x80000001, cr2 := 0, cr3 := 0x2000,
    cpl := 0, a20Enabled := true }

/-- C6 witness fault configuration: a user-mode read whose PTE has U/S=0,
so the translation faults with a protection violation. -/
def c6CPUf : PagingCPU :=
  { mem := fun a =>
      if a = 0x2000 then 0x27 else if a = 0x2001 then 0x30
      else if a = 0x3004 then 0x03 else if a = 0x3005 then 0x40 else 0,
    memSize := 0x100000, cr0 := 0x80000001, cr2 := 0, cr3 := 0x2000,
    cpl := 3, a20Enabled := true }

theorem c6_accessed_dirty_writeback_witness :
    readPhys32 (translate_address_slow_case c6CPU 0x1000 .write 0xff).2
        (pteAddrOf c6CPU 0x1000) &&& PageTableEntryFlags.Accessed ≠ 0 ∧
    readPhys32 (translate_address_slow_case c6CPU 0x1000 .write 0xff).2
        (pteAddrOf c6CPU 0x1000) &&& PageTableEntryFlags.Dirty ≠ 0 ∧
    readPhys32 (translate_address_slow_case c6CPU 0x1000 .write 0xff).2
        (pdeAddrOf c6CPU 0x1000) &&& PageTableEntryFlags.Accessed ≠ 0 ∧
    (translate_address_slow_case c6CPUf 0x1000 .read 0xff).2.mem = c6CPUf.mem := by
  have h1 : (translate_address_slow_case c6CPU 0x1000 .write 0xff).1 = .ok 0x4000 := by
    rfl
  have hEq : translate_address_slow_case c6CPU 0x1000 .write 0xff =
      (.ok 0x4000, (translate_address_slow_case c6CPU 0x1000 .write 0xff).2) := by
    rw [← h1]
  have hc := (c6_accessed_dirty_writeback c6CPU 0x1000 .write 0xff).2 0x4000
    (translate_address_slow_case c6CPU 0x1000 .write 0xff).2 hEq (by decide)
  have h1f : (translate_address_slow_case c6CPUf 0x1000 .read 0xff).1 =
      .error (.pageFault 5 0x1000) := by rfl
  have hEqf : translate_address_slow_case c6CPUf 0x1000 .read 0xff =
      (.error (.pageFault 5 0x1000),
        (translate_address_slow_case c6CPUf 0x1000 .read 0xff).2) := by
    rw [← h1f]
  refine ⟨hc.2.2.2.1, hc.2.2.2.2.1 rfl, hc.2.2.1, ?_⟩
  exact (c6_accessed_dirty_writeback c6CPUf 0x1000 .read 0xff).1
    (.pageFault 5 0x1000) _ hEqf

/-! ### Claim C2 -/

theorem shiftLeft_lor_distrib (a b n : Nat) :
    (a ||| b) <<< n = (a <<< n) ||| (b <<< n) := by
  apply Nat.eq_of_testBit_eq
  intro i
  simp [Nat.testBit_shiftLeft, Nat.testBit_lor, Bool.and_or_distrib_left]

/-- The source's nested welds compose the four bytes little-endian:
the byte read at the lowest address is the least significant. -/
theorem weld32_le (b0 b1 b2 b3 : Nat) :
    weld32 (weld16 b3 b2) (weld16 b1 b0) =
      (b3 <<< 24) ||| (b2 <<< 16) ||| (b1 <<< 8) ||| b0 := by
  unfold weld32 weld16
  rw [shiftLeft_lor_distrib, ← Nat.shiftLeft_add]
  rw [← Nat.or_assoc]

/-- The spec's words ("Multi-byte accesses that straddle a page boundary
MUST be decomposed byte-wise ...; composition uses little-endian byte
order"): write the value one byte at a time, low byte at the lowest
address. Used as the reference side of the write-decomposition conjunct. -/
def write_bytes_le (s : PagingCPU) (lin v ecpl : Nat) :
    Except Exn Unit × PagingCPU :=
  match write_memory8 s lin (v &&& 0xff) ecpl with
  | (.error e, s') => (.error e, s')
  | (.ok _, s1) =>
    match write_memory8 s1 (lin + 1) ((v >>> 8) &&& 0xff) ecpl with
    | (.error e, s') => (.error e, s')
    | (.ok _, s2) =>
      match write_memory8 s2 (lin + 2) ((v >>> 16) &&& 0xff) ecpl with
      | (.error e, s') => (.error e, s')
      | (.ok _, s3) => write_memory8 s3 (lin + 3) ((v >>> 24) &&& 0xff) ecpl

/-- The 2-byte analogue of `write_bytes_le`: write the value one byte at a
time, low byte at the lowest address. -/
def write_bytes_le16 (s : PagingCPU) (lin v ecpl : Nat) :
    Except Exn Unit × PagingCPU :=
  match write_memory8 s lin (v &&& 0xff) ecpl with
  | (.error e, s') => (.error e, s')
  | (.ok _, s1) => write_memory8 s1 (lin + 1) ((v >>> 8) &&& 0xff) ecpl

/-- C2: with paging enabled, a 2-byte or 4-byte access that straddles a
page boundary is decomposed into single-byte accesses in little-endian
order:
(a) a 4-byte read whose byte reads all succeed without observable state
change composes them with the low byte at the lowest address;
(b) a straddling 4-byte write equals the byte-by-byte little-endian write
sequence;
(c) a 4-byte read whose second page has a present PDE but a non-present PTE
raises #PF with CR2 equal to the first linear address inside that second
page, provided the byte reads before the boundary succeed;
(d) likewise a straddling 2-byte read composes little-endian;
(e) a straddling 2-byte write equals the byte-by-byte little-endian write
sequence. -/
theorem c2_straddling_access_bytewise (s : PagingCPU) (lin ecpl : Nat)
    (hpe : s.getPE = true) (hpg : s.getPG = true)
    (hstraddle : lin &&& 0xfffff000 ≠ (lin + 3) &&& 0xfffff000) :
    (∀ b : Nat → Nat,
      (∀ i, i < 4 → read_memory8 s (lin + i) .read ecpl = (.ok (b i), s)) →
      read_memory32 s lin .read ecpl =
        (.ok ((b 3 <<< 24) ||| (b 2 <<< 16) ||| (b 1 <<< 8) ||| b 0), s)) ∧
    (∀ v, write_memory32 s lin v ecpl = write_bytes_le s lin v ecpl) ∧
    (∀ d, 1 ≤ d → d ≤ 3 →
      lin + d = (lin &&& 0xfffff000) + 0x1000 →
      (∀ i, i < d → ∃ bv, read_memory8 s (lin + i) .read ecpl = (.ok bv, s)) →
      readPhys32 s (pdeAddrOf s (lin + d)) &&& PageTableEntryFlags.Present ≠ 0 →
      readPhys32 s (pteAddrOf s (lin + d)) &&& PageTableEntryFlags.Present = 0 →
      read_memory32 s lin .read ecpl =
        (.error (.pageFault
            (makePFErrorCode PageFaultFlags.NotPresent .read (inUserMode s ecpl))
            ((lin &&& 0xfffff000) + 0x1000)),
          { s with cr2 := (lin &&& 0xfffff000) + 0x1000 })) ∧
    (lin &&& 0xfffff000 ≠ (lin + 1) &&& 0xfffff000 →
      ∀ c0 c1 : Nat,
      read_memory8 s lin .read ecpl = (.ok c0, s) →
      read_memory8 s (lin + 1) .read ecpl = (.ok c1, s) →
      read_memory16 s lin .read ecpl = (.ok ((c1 <<< 8) ||| c0), s)) ∧
    (lin &&& 0xfffff000 ≠ (lin + 1) &&& 0xfffff000 →
      ∀ v, write_memory16 s lin v ecpl = write_bytes_le16 s lin v ecpl) := by
  refine ⟨?_, ?_, ?_, ?_, ?_⟩
  · intro b hb
    have h0 := hb 0 (by omega)
    have h1 := hb 1 (by omega)
    have h2 := hb 2 (by omega)
    have h3 := hb 3 (by omega)
    rw [Nat.add_zero] at h0
    unfold read_memory32
    rw [if_pos ⟨hpg, hstraddle⟩, h0]
    dsimp only
    rw [h1]
    dsimp only
    rw [h2]
    dsimp only
    rw [h3]
    dsimp only
    rw [weld32_le]
  · intro v
    unfold write_memory32
    rw [if_pos ⟨hpg, hstraddle⟩]
    rfl
  · intro d hd1 hd3 hb hok hpde hpte
    rw [← hb]
    have hfault := read_memory8_nonpresent s (lin + d) ecpl hpe hpg (Or.inr ⟨hpde, hpte⟩)
    interval_cases d
    · obtain ⟨b0, h0⟩ := hok 0 (by omega)
      rw [Nat.add_zero] at h0
      unfold read_memory32
      rw [if_pos ⟨hpg, hstraddle⟩, h0]
      dsimp only
      rw [hfault]
    · obtain ⟨b0, h0⟩ := hok 0 (by omega)
      obtain ⟨b1, h1⟩ := hok 1 (by omega)
      rw [Nat.add_zero] at h0
      unfold read_memory32
      rw [if_pos ⟨hpg, hstraddle⟩, h0]
      dsimp only
      rw [h1]
      dsimp only
      rw [hfault]
    · obtain ⟨b0, h0⟩ := hok 0 (by omega)
      obtain ⟨b1, h1⟩ := hok 1 (by omega)
      obtain ⟨b2, h2⟩ := hok 2 (by omega)
      rw [Nat.add_zero] at h0
      unfold read_memory32
      rw [if_pos ⟨hpg, hstraddle⟩, h0]
      dsimp only
      rw [h1]
      dsimp only
      rw [h2]
      dsimp only
      rw [hfault]
  · intro h16 c0 c1 hc0 hc1
    unfold read_memory16
    rw [if_pos ⟨hpg, h16⟩, hc0]
    dsimp only
    rw [hc1]
    rfl
  · intro h16 v
    unfold write_memory16
    rw [if_pos ⟨hpg, h16⟩]
    rfl

/-- A 32-bit physical write whose bytes are already stored at the target
leaves the state unchanged (used to exhibit state-preserving page walks). -/
theorem writePhys32_id (s : PagingCPU) (a v : Nat)
    (h0 : s.mem a = v &&& 0xff) (h1 : s.mem (a + 1) = (v >>> 8) &&& 0xff)
    (h2 : s.mem (a + 2) = (v >>> 16) &&& 0xff)
    (h3 : s.mem (a + 3) = (v >>> 24) &&& 0xff) :
    writePhys32 s a v = s := by
  unfold writePhys32
  split
  · have hf : (fun x => if x = a then v &&& 0xff
        else if x = a + 1 then (v >>> 8) &&& 0xff
        else if x = a + 2 then (v >>> 16) &&& 0xff
        else if x = a + 3 then (v >>> 24) &&& 0xff
        else s.mem x) = s.mem := by
      funext x
      split_ifs with e0 e1 e2 e3
      · rw [← e0] at h0
        exact h0.symm
      · rw [← e1] at h1
        exact h1.symm
      · rw [← e2] at h2
        exact h2.symm
      · rw [← e3] at h3
        exact h3.symm
      · rfl
    rw [hf]
  · rfl

/-- C2 witness configuration: CR3=0x2000; the single page directory entry
0x3027 (present, A set) covers pages 0 and 1; PTE for page 0 is 0x4027 and
for page 1 is 0x5027 (both present, A set); the guest bytes 0x11 0x22 0x33
sit at the end of frame 0x4000 and 0x44 at the start of frame 0x5000. -/
def c2CPU : PagingCPU :=
  { mem := fun a =>
      if a = 0x2000 then 0x27 else if a = 0x2001 then 0x30
      else if a = 0x3000 then 0x27 else if a = 0x3001 then 0x40
      else if a = 0x3004 then 0x27 else if a = 0x3005 then 0x50
      else if a = 0x4FFD then 0x11 else if a = 0x4FFE then 0x22
      else if a = 0x4FFF then 0x33 else if a = 0x5000 then 0x44 else 0,
    memSize := 0x100000, cr0 := 0x80000001, cr2 := 0, cr3 := 0x2000,
    cpl := 0, a20Enabled := true }

/-- Like `c2CPU` but the PTE of page 1 is zero, so the second page of a
straddling access is not present. -/
def c2CPUf : PagingCPU :=
  { mem := fun a =>
      if a = 0x2000 then 0x27 else if a = 0x2001 then 0x30
      else if a = 0x3000 then 0x27 else if a = 0x3001 then 0x40
      else if a = 0x4FFD then 0x11 else if a = 0x4FFE then 0x22
      else if a = 0x4FFF then 0x33 else 0,
    memSize := 0x100000, cr0 := 0x80000001, cr2 := 0, cr3 := 0x2000,
    cpl := 0, a20Enabled := true }

theorem c2_straddling_access_bytewise_witness :
    read_memory32 c2CPU 0xFFD .read 0xff = (.ok 0x44332211, c2CPU) ∧
    write_memory32 c2CPU 0xFFD 0xdeadbeef 0xff =
      write_bytes_le c2CPU 0xFFD 0xdeadbeef 0xff ∧
    read_memory32 c2CPUf 0xFFD .read 0xff =
      (.error (.pageFault 0 0x1000), { c2CPUf with cr2 := 0x1000 }) ∧
    read_memory16 c2CPU 0xFFF .read 0xff = (.ok 0x4433, c2CPU) ∧
    write_memory16 c2CPU 0xFFF 0xbeef 0xff =
      write_bytes_le16 c2CPU 0xFFF 0xbeef 0xff := by
  have hB0 : read_memory8 c2CPU 0xFFD .read 0xff = (.ok 0x11, c2CPU) := by
    have a2 : (read_memory8 c2CPU 0xFFD .read 0xff).2 = c2CPU := by
      show writePhys32 (writePhys32 c2CPU 0x2000 0x3027) 0x3000 0x4027 = c2CPU
      rw [writePhys32_id c2CPU 0x2000 0x3027 (by decide) (by decide) (by decide)
        (by decide)]
      exact writePhys32_id c2CPU 0x3000 0x4027 (by decide) (by decide) (by decide)
        (by decide)
    have a1 : (read_memory8 c2CPU 0xFFD .read 0xff).1 = .ok 0x11 := by rfl
    exact Prod.ext a1 a2
  have hB1 : read_memory8 c2CPU 0xFFE .read 0xff = (.ok 0x22, c2CPU) := by
    have a2 : (read_memory8 c2CPU 0xFFE .read 0xff).2 = c2CPU := by
      show writePhys32 (writePhys32 c2CPU 0x2000 0x3027) 0x3000 0x4027 = c2CPU
      rw [writePhys32_id c2CPU 0x2000 0x3027 (by decide) (by decide) (by decide)
        (by decide)]
      exact writePhys32_id c2CPU 0x3000 0x4027 (by decide) (by decide) (by decide)
        (by decide)
    have a1 : (read_memory8 c2CPU 0xFFE .read 0xff).1 = .ok 0x22 := by rfl
    exact Prod.ext a1 a2
  have hB2 : read_memory8 c2CPU 0xFFF .read 0xff = (.ok 0x33, c2CPU) := by
    have a2 : (read_memory8 c2CPU 0xFFF .read 0xff).2 = c2CPU := by
      show writePhys32 (writePhys32 c2CPU 0x2000 0x3027) 0x3000 0x4027 = c2CPU
      rw [writePhys32_id c2CPU 0x2000 0x3027 (by decide) (by decide) (by decide)
        (by decide)]
      exact writePhys32_id c2CPU 0x3000 0x4027 (by decide) (by decide) (by decide)
        (by decide)
    have a1 : (read_memory8 c2CPU 0xFFF .read 0xff).1 = .ok 0x33 := by rfl
    exact Prod.ext a1 a2
  have hB3 : read_memory8 c2CPU 0x1000 .read 0xff = (.ok 0x44, c2CPU) := by
    have a2 : (read_memory8 c2CPU 0x1000 .read 0xff).2 = c2CPU := by
      show writePhys32 (writePhys32 c2CPU 0x2000 0x3027) 0x3004 0x5027 = c2CPU
      rw [writePhys32_id c2CPU 0x2000 0x3027 (by decide) (by decide) (by decide)
        (by decide)]
      exact writePhys32_id c2CPU 0x3004 0x5027 (by decide) (by decide) (by decide)
        (by decide)
    have a1 : (read_memory8 c2CPU 0x1000 .read 0xff).1 = .ok 0x44 := by rfl
    exact Prod.ext a1 a2
  have hF0 : read_memory8 c2CPUf 0xFFD .read 0xff = (.ok 0x11, c2CPUf) := by
    have a2 : (read_memory8 c2CPUf 0xFFD .read 0xff).2 = c2CPUf := by
      show writePhys32 (writePhys32 c2CPUf 0x2000 0x3027) 0x3000 0x4027 = c2CPUf
      rw [writePhys32_id c2CPUf 0x2000 0x3027 (by decide) (by decide) (by decide)
        (by decide)]
      exact writePhys32_id c2CPUf 0x3000 0x4027 (by decide) (by decide) (by decide)
        (by decide)
    have a1 : (read_memory8 c2CPUf 0xFFD .read 0xff).1 = .ok 0x11 := by rfl
    exact Prod.ext a1 a2
  have hF1 : read_memory8 c2CPUf 0xFFE .read 0xff = (.ok 0x22, c2CPUf) := by
    have a2 : (read_memory8 c2CPUf 0xFFE .read 0xff).2 = c2CPUf := by
      show writePhys32 (writePhys32 c2CPUf 0x2000 0x3027) 0x3000 0x4027 = c2CPUf
      rw [writePhys32_id c2CPUf 0x2000 0x3027 (by decide) (by decide) (by decide)
        (by decide)]
      exact writePhys32_id c2CPUf 0x3000 0x4027 (by decide) (by decide) (by decide)
        (by decide)
    have a1 : (read_memory8 c2CPUf 0xFFE .read 0xff).1 = .ok 0x22 := by rfl
    exact Prod.ext a1 a2
  have hF2 : read_memory8 c2CPUf 0xFFF .read 0xff = (.ok 0x33, c2CPUf) := by
    have a2 : (read_memory8 c2CPUf 0xFFF .read 0xff).2 = c2CPUf := by
      show writePhys32 (writePhys32 c2CPUf 0x2000 0x3027) 0x3000 0x4027 = c2CPUf
      rw [writePhys32_id c2CPUf 0x2000 0x3027 (by decide) (by decide) (by decide)
        (by decide)]
      exact writePhys32_id c2CPUf 0x3000 0x4027 (by decide) (by decide) (by decide)
        (by decide)
    have a1 : (read_memory8 c2CPUf 0xFFF .read 0xff).1 = .ok 0x33 := by rfl
    exact Prod.ext a1 a2
  obtain ⟨hread, hwrite, -, -, -⟩ :=
    c2_straddling_access_bytewise c2CPU 0xFFD 0xff (by decide) (by decide) (by decide)
  obtain ⟨-, -, hfaultf, -, -⟩ :=
    c2_straddling_access_bytewise c2CPUf 0xFFD 0xff (by decide) (by decide) (by decide)
  obtain ⟨-, -, -, h16b, h16w⟩ :=
    c2_straddling_access_bytewise c2CPU 0xFFF 0xff (by decide) (by decide) (by decide)
  refine ⟨?_, hwrite 0xdeadbeef, ?_, ?_, h16w (by decide) 0xbeef⟩
  · exact hread
      (fun i => if i = 0 then 0x11 else if i = 1 then 0x22 else if i = 2 then 0x33
        else 0x44)
      (by
        intro i hi
        interval_cases i
        · exact hB0
        · exact hB1
        · exact hB2
        · exact hB3)
  · exact hfaultf 3 (by omega) (by omega) (by decide)
      (by
        intro i hi
        interval_cases i
        · exact ⟨0x11, hF0⟩
        · exact ⟨0x22, hF1⟩
        · exact ⟨0x33, hF2⟩)
      (by decide) (by decide)
  · exact h16b (by decide) 0x33 0x44 hB2 hB3

/-! ### Claim C8 — 16-bit PUSHA (src/x86/186.cpp) -/

/-- The 16-bit register/stack slice of the `VCpu` core used by `_PUSHA`. -/
structure VCpu16 where
  ax : Nat
  cx : Nat
  dx : Nat
  bx : Nat
  sp : Nat
  bp : Nat
  si : Nat
  di : Nat
  ss : Nat
  mem : Nat → Nat

/-- Modelled from the spec: the 16-bit `push` helper (its header is not in
the sources) — decrement SP by two (16-bit wraparound) and store the word
little-endian at linear address SS*16 + SP. -/
def VCpu16.push (s : VCpu16) (v : Nat) : VCpu16 :=
  let sp' := (s.sp + 65536 - 2) % 65536
  { s with
    sp := sp'
    mem := fun x =>
      if x = s.ss * 16 + sp' then v &&& 0xff
      else if x = s.ss * 16 + sp' + 1 then (v >>> 8) &&& 0xff
      else s.mem x }

/-- A little-endian word read from guest memory. -/
def VCpu16.readWord (s : VCpu16) (a : Nat) : Nat :=
  s.mem a % 256 + 256 * (s.mem (a + 1) % 256)

/-- `VCpu::_PUSHA` (src/x86/186.cpp line 85): saves SP, then pushes
AX, CX, DX, BX, the saved SP, BP, SI, DI in that order. -/
def VCpu16.pusha (s : VCpu16) : VCpu16 :=
  let oldSP := s.sp
  let s1 := s.push s.ax
  let s2 := s1.push s1.cx
  let s3 := s2.push s2.dx
  let s4 := s3.push s3.bx
  let s5 := s4.push oldSP
  let s6 := s5.push s5.bp
  let s7 := s6.push s6.si
  s7.push s7.di

/-- The concrete initial state of the C8 claim: SP=0x1000, AX=1, CX=2,
DX=3, BX=4, BP=6, SI=7, DI=8 (SS=0, memory zeroed). -/
def c8CPU : VCpu16 :=
  { ax := 1, cx := 2, dx := 3, bx := 4, sp := 0x1000, bp := 6, si := 7,
    di := 8, ss := 0, mem := fun _ => 0 }

/-- C8 counterexample: the claim says the stack word at SP-2 (= 0x0FFE) is
DI (= 8); in fact `_PUSHA` pushes AX first, so the word at SP-2 is AX = 1. -/
theorem c8_counterexample_sp_minus_2_holds_ax :
    (VCpu16.pusha c8CPU).readWord 0x0FFE = 1 ∧
    ¬(VCpu16.pusha c8CPU).readWord 0x0FFE = 8 := by
  decide

/-- C8 (amended): after `_PUSHA` at SP=0x1000 with AX=1, CX=2, DX=3, BX=4,
BP=6, SI=7, DI=8, the stack words at SP-2 down to SP-16 are AX, CX, DX,
BX, the original SP, BP, SI, DI in that order (equivalently DI, SI, BP,
original SP, BX, DX, CX, AX read upward from SP-16), and SP ends at
0x0FF0. -/
theorem c8_pusha_stack_layout :
    (VCpu16.pusha c8CPU).sp = 0x0FF0 ∧
    (VCpu16.pusha c8CPU).readWord 0x0FFE = 1 ∧
    (VCpu16.pusha c8CPU).readWord 0x0FFC = 2 ∧
    (VCpu16.pusha c8CPU).readWord 0x0FFA = 3 ∧
    (VCpu16.pusha c8CPU).readWord 0x0FF8 = 4 ∧
    (VCpu16.pusha c8CPU).readWord 0x0FF6 = 0x1000 ∧
    (VCpu16.pusha c8CPU).readWord 0x0FF4 = 6 ∧
    (VCpu16.pusha c8CPU).readWord 0x0FF2 = 7 ∧
    (VCpu16.pusha c8CPU).readWord 0x0FF0 = 8 := by
  decide

/-! ### Claim C9 — POP CS in the 8086 core (src/8086/stack.c) -/

/-- The register slice of the 8086 core touched by the stack handlers. -/
structure Cpu8086 where
  cs : Nat
  ds : Nat
  es : Nat
  ss : Nat
  ip : Nat
  sp : Nat
  mem : Nat → Nat

/-- `_POP_CS` (src/8086/stack.c line 58): the handler only logs
"Attempted either POP CS or 286+ instruction." — it pops nothing, changes
no register and raises no exception. -/
def popCS (s : Cpu8086) : Except Exn Cpu8086 := .ok s

/-- C9: what the code actually does on the POP CS opcode — it returns
successfully with the state (in particular CS and SP) completely
unchanged, instead of raising #UD (vector 6) as the claim (and the spec's
own note) requires. -/
theorem c9_pop_cs_returns_unchanged_without_ud (s : Cpu8086) :
    popCS s = .ok s := rfl

/-! ### Claims C7 and C10 — reset / hard reboot / HLT (src/x86/CPU.cpp) -/

/-- `CPU::State`. -/
inductive CPUState where
  | dead
  | alive
  | halted
  deriving DecidableEq, Repr

/-- The architectural state touched by `CPU::reset`, `CPU::hard_reboot`,
`CPU::set_memory_size_and_reallocate_if_needed` and `CPU::_HLT`.
`flags` is the EFLAGS word as written by `set_flags` (modelled from the
spec, the header being absent); `cpl` is the cached CS RPL that `get_cpl`
reads. -/
structure CPUFull where
  gpr : Fin 8 → Nat
  cr0 : Nat
  cr2 : Nat
  cr3 : Nat
  cr4 : Nat
  dr : Fin 8 → Nat
  iopl : Nat
  vm : Nat
  vip : Nat
  vif : Nat
  nt : Nat
  rf : Nat
  ac : Nat
  idf : Nat
  gdtrBase : Nat
  gdtrLimit : Nat
  idtrBase : Nat
  idtrLimit : Nat
  ldtrBase : Nat
  ldtrLimit : Nat
  trSelector : Nat
  trLimit : Nat
  trBase : Nat
  trIs32 : Bool
  cs : Nat
  ds : Nat
  es : Nat
  ss : Nat
  fs : Nat
  gs : Nat
  eip : Nat
  flags : Nat
  cpl : Nat
  state : CPUState
  a20Enabled : Bool
  nextInstructionUninterruptible : Bool
  mem : Nat → Nat
  memSize : Nat
  shouldHardReboot : Bool
  isForAutotest : Bool
  entryCS : Nat
  entryIP : Nat
  addressSize32 : Bool
  operandSize32 : Bool
  dirtyFlags : Nat
  lastResult : Nat
  cycle : Nat

/-- `CPU::reset` (src/x86/CPU.cpp line 291), as the net effect of its
statement sequence (each field shows its final value): GPRs, CRs and DRs
are zeroed; GDTR/IDTR/LDTR are cleared (modelled from the spec: "loads
IDTR/GDTR/LDTR as empty"); TR gets selector 0, limit 0xffff, base 0,
16-bit; the segment registers are zeroed and then `far_jump` (real mode,
`JumpType::Internal`, so no push) loads CS:EIP with the configured entry
point in autotest mode or F000:0000 otherwise; `set_flags(0x0200)` then
`set_iopl(3)` run after the jump. `m_memory` is NOT touched by `reset`. -/
def CPUFull.reset (s : CPUFull) : CPUFull :=
  { s with
    a20Enabled := false,
    nextInstructionUninterruptible := false,
    gpr := fun _ => 0,
    cr0 := 0, cr2 := 0, cr3 := 0, cr4 := 0,
    dr := fun _ => 0,
    vm := 0, vip := 0, vif := 0, nt := 0, rf := 0, ac := 0, idf := 0,
    gdtrBase := 0, gdtrLimit := 0,
    idtrBase := 0, idtrLimit := 0,
    ldtrBase := 0, ldtrLimit := 0,
    trSelector := 0, trLimit := 0xffff, trBase := 0, trIs32 := false,
    ds := 0, es := 0, ss := 0, fs := 0, gs := 0,
    cpl := 0,
    cs := if s.isForAutotest then s.entryCS else 0xf000,
    eip := if s.isForAutotest then s.entryIP else 0,
    flags := 0x0200,
    iopl := 3,
    state := .alive,
    addressSize32 := false, operandSize32 := false,
    dirtyFlags := 0, lastResult := 0,
    cycle := 0 }

/-- `CPU::set_memory_size_and_reallocate_if_needed` (src/x86/CPU.cpp
line 201): when the size changes, the backing store is reallocated and
`memset` to zero; when it is unchanged, the call returns at once and the
memory keeps its contents. -/
def CPUFull.set_memory_size_and_reallocate_if_needed (s : CPUFull)
    (size : Nat) : CPUFull :=
  if s.memSize = size then s
  else { s with memSize := size, mem := fun _ => 0 }

/-- `CPU::hard_reboot` (src/x86/CPU.cpp line 440): resets the I/O devices
(outside this model), calls `reset()`, and clears the reboot request.
It never reallocates or clears guest memory. -/
def CPUFull.hard_reboot (s : CPUFull) : CPUFull :=
  { s.reset with shouldHardReboot := false }

/-- C7 (amended): `reset` zeroes the GPRs, sets EFLAGS to 0x0200 and IOPL
to 3, and jumps to the configured entry point in autotest mode or to
F000:0000 otherwise — and the same holds for a reset triggered by the
HardReboot command — but guest memory is NOT freshly zeroed by reset: its
contents are preserved, and memory is zeroed only when
`set_memory_size_and_reallocate_if_needed` actually reallocates (i.e. when
the requested size differs from the current one). -/
theorem c7_reset_effects_and_memory_preservation (s : CPUFull) :
    s.reset.gpr = (fun _ => 0) ∧
    s.reset.flags = 0x0200 ∧
    s.reset.iopl = 3 ∧
    s.reset.cs = (if s.isForAutotest then s.entryCS else 0xf000) ∧
    s.reset.eip = (if s.isForAutotest then s.entryIP else 0) ∧
    s.reset.mem = s.mem ∧
    s.hard_reboot.gpr = (fun _ => 0) ∧
    s.hard_reboot.flags = 0x0200 ∧
    s.hard_reboot.iopl = 3 ∧
    s.hard_reboot.mem = s.mem ∧
    s.hard_reboot.shouldHardReboot = false ∧
    (∀ size, s.memSize ≠ size →
      s.set_memory_size_and_reallocate_if_needed size =
        { s with memSize := size, mem := fun _ => 0 }) ∧
    (∀ size, s.memSize = size →
      s.set_memory_size_and_reallocate_if_needed size = s) := by
  refine ⟨rfl, rfl, rfl, Eq.refl _, ?_⟩
  refine ⟨rfl, Eq.refl _, rfl, rfl, ?_⟩
  refine ⟨rfl, rfl, Eq.refl _, ?_, ?_⟩
  · intro size h
    unfold CPUFull.set_memory_size_and_reallocate_if_needed
    rw [if_neg h]
  · intro size h
    unfold CPUFull.set_memory_size_and_reallocate_if_needed
    rw [if_pos h]

/-- A machine whose guest memory holds 0xAB everywhere and that has a
pending HardReboot request. -/
def c7CPU : CPUFull :=
  { gpr := fun _ => 5, cr0 := 1, cr2 := 2, cr3 := 3, cr4 := 4,
    dr := fun _ => 6, iopl := 0, vm := 0, vip := 0, vif := 0, nt := 0,
    rf := 0, ac := 0, idf := 0, gdtrBase := 0, gdtrLimit := 0,
    idtrBase := 0, idtrLimit := 0, ldtrBase := 0, ldtrLimit := 0,
    trSelector := 0, trLimit := 0, trBase := 0, trIs32 := false,
    cs := 0x1234, ds := 0, es := 0, ss := 0, fs := 0, gs := 0,
    eip := 0x99, flags := 0x46, cpl := 0, state := .alive,
    a20Enabled := true, nextInstructionUninterruptible := false,
    mem := fun _ => 0xAB, memSize := 8388608, shouldHardReboot := true,
    isForAutotest := false, entryCS := 0, entryIP := 0,
    addressSize32 := false, operandSize32 := false, dirtyFlags := 0,
    lastResult := 0, cycle := 77 }

/-- C7 counterexample: after a reset triggered by HardReboot, guest memory
still holds its old contents (byte 0 is 0xAB, not 0) — the memory size is
unchanged, so no reallocation (and hence no zeroing) happens. -/
theorem c7_counterexample_hard_reboot_memory_not_zeroed :
    c7CPU.hard_reboot.mem 0 = 0xAB ∧ ¬c7CPU.hard_reboot.mem 0 = 0 ∧
    c7CPU.hard_reboot.memSize = c7CPU.memSize := by
  refine ⟨rfl, by decide, rfl⟩

theorem c7_reset_effects_and_memory_preservation_witness :
    c7CPU.set_memory_size_and_reallocate_if_needed 8388608 = c7CPU ∧
    (c7CPU.set_memory_size_and_reallocate_if_needed 1024).mem 0 = 0 := by
  constructor
  · exact (c7_reset_effects_and_memory_preservation c7CPU).2.2.2.2.2.2.2.2.2.2.2.2
      8388608 rfl
  · have h := (c7_reset_effects_and_memory_preservation c7CPU).2.2.2.2.2.2.2.2.2.2.2.1
      1024 (by decide)
    rw [h]

/-- `CPU::_HLT` (src/x86/CPU.cpp line 951): with CPL ≠ 0 it throws
`GeneralProtectionFault(0, ...)` before touching any state; with CPL = 0
it sets the CPU state to Halted and enters `halted_loop()` (the idle
sleep/poll loop itself is outside the state model). An `.error` result
means the exception propagates with the CPU state unchanged. -/
def CPUFull.hlt (s : CPUFull) : Except Exn CPUFull :=
  if s.cpl ≠ 0 then .error (.generalProtectionFault 0)
  else .ok { s with state := .halted }

/-- C10: HLT with CPL ≠ 0 raises #GP (vector 13) with error code 0 and
changes no architectural state (in particular the CPU does not enter the
Halted state); only with CPL = 0 does HLT halt, and then the only change
is the Halted state. -/
theorem c10_hlt_requires_ring0 (s : CPUFull) :
    (s.cpl ≠ 0 → s.hlt = .error (.generalProtectionFault 0) ∧
      (Exn.generalProtectionFault 0).vector = 13) ∧
    (s.cpl = 0 → s.hlt = .ok { s with state := .halted }) := by
  constructor
  · intro h
    unfold CPUFull.hlt
    rw [if_pos h]
    exact ⟨rfl, rfl⟩
  · intro h
    unfold CPUFull.hlt
    rw [iteElse (by omega)]

def c10CPU : CPUFull := { c7CPU with cpl := 3, shouldHardReboot := false }

theorem c10_hlt_requires_ring0_witness :
    c10CPU.hlt = .error (.generalProtectionFault 0) ∧
    c7CPU.hlt = .ok { c7CPU with state := .halted } := by
  exact ⟨((c10_hlt_requires_ring0 c10CPU).1 (by decide)).1,
    (c10_hlt_requires_ring0 c7CPU).2 rfl⟩

/-! ### Claim C4 — real-mode interrupt delivery (src/x86/interrupt.cpp) -/

/-- The real-mode slice of the CPU: CS:EIP, SS:SP, the FLAGS word (as
materialized by `getFlags()`), and physical memory (real mode translates
segment:offset straight to `segment*16 + offset`). -/
structure RealCPU where
  cs : Nat
  eip : Nat
  ss : Nat
  sp : Nat
  flags : Nat
  mem : Nat → Nat
  memSize : Nat

/-- A little-endian 16-bit physical read (reads outside RAM return 0, the
bounds check testing the start address as in the source). -/
def RealCPU.readPhys16 (s : RealCPU) (a : Nat) : Nat :=
  if a < s.memSize then s.mem a % 256 + 256 * (s.mem (a + 1) % 256) else 0

/-- A little-endian 16-bit physical write (writes outside RAM are
dropped). -/
def RealCPU.writePhys16 (s : RealCPU) (a v : Nat) : RealCPU :=
  if a < s.memSize then
    { s with mem := fun x =>
        if x = a then v &&& 0xff
        else if x = a + 1 then (v >>> 8) &&& 0xff
        else s.mem x }
  else s

/-- Modelled from the spec: `push16` (header not in the sources) — the
real-mode 16-bit push decrements SP by two (16-bit wraparound) and stores
the word at linear address SS*16 + SP. -/
def RealCPU.push16 (s : RealCPU) (v : Nat) : RealCPU :=
  let sp' := (s.sp + 65536 - 2) % 65536
  RealCPU.writePhys16 { s with sp := sp' } (s.ss * 16 + sp') v

/-- `CPU::realModeInterrupt` (src/x86/interrupt.cpp line 102): saves
CS/IP/FLAGS, reads the new selector from physical `isr*4 + 2` and the new
offset from `isr*4`, loads CS:EIP, pushes FLAGS, the old CS and the old
IP, then clears IF (FLAGS bit 9) and TF (FLAGS bit 8). `getFlags`/`setIF`/
`setTF` are modelled from the spec as operations on the 16-bit FLAGS word
(bit 9 = IF, bit 8 = TF). -/
def realModeInterrupt (s : RealCPU) (isr : Nat) : RealCPU :=
  let originalCS := s.cs
  let originalIP := s.eip &&& 0xffff
  let flags := s.flags &&& 0xffff
  let selector := s.readPhys16 (isr * 4 + 2)
  let offset := s.readPhys16 (isr * 4)
  let s1 := { s with cs := selector, eip := offset }
  let s2 := s1.push16 flags
  let s3 := s2.push16 originalCS
  let s4 := s3.push16 originalIP
  { s4 with flags := s4.flags &&& 0xFDFF &&& 0xFEFF }

/-- C4: a real-mode interrupt with vector `isr` pushes FLAGS, then CS, then
IP (16 bits each, at SS:SP-2, SS:SP-4, SS:SP-6), loads the new IP from
physical address `isr*4` and the new CS from `isr*4 + 2`, clears IF and
TF, and transfers control there; SP ends 6 lower. (The well-formedness
hypotheses keep the 16-bit registers in range, the stack inside RAM and
away from 16-bit SP wraparound.) -/
theorem c4_real_mode_interrupt_delivery (s : RealCPU) (isr : Nat)
    (hcs : s.cs < 65536) (hip : s.eip < 65536) (hfl : s.flags < 65536)
    (hsp6 : 6 ≤ s.sp) (hsp : s.sp < 65536)
    (hmem : s.ss * 16 + s.sp ≤ s.memSize) :
    (realModeInterrupt s isr).cs = s.readPhys16 (isr * 4 + 2) ∧
    (realModeInterrupt s isr).eip = s.readPhys16 (isr * 4) ∧
    (realModeInterrupt s isr).ss = s.ss ∧
    (realModeInterrupt s isr).sp = s.sp - 6 ∧
    (realModeInterrupt s isr).readPhys16 (s.ss * 16 + (s.sp - 2)) = s.flags ∧
    (realModeInterrupt s isr).readPhys16 (s.ss * 16 + (s.sp - 4)) = s.cs ∧
    (realModeInterrupt s isr).readPhys16 (s.ss * 16 + (s.sp - 6)) = s.eip ∧
    (realModeInterrupt s isr).flags.testBit 9 = false ∧
    (realModeInterrupt s isr).flags.testBit 8 = false := by
  have e1 : (s.sp + 65536 - 2) % 65536 = s.sp - 2 := by omega
  have e2 : (s.sp - 2 + 65536 - 2) % 65536 = s.sp - 4 := by omega
  have e3 : (s.sp - 4 + 65536 - 2) % 65536 = s.sp - 6 := by omega
  have hc1 : s.ss * 16 + (s.sp - 2) < s.memSize := by omega
  have hc2 : s.ss * 16 + (s.sp - 4) < s.memSize := by omega
  have hc3 : s.ss * 16 + (s.sp - 6) < s.memSize := by omega
  have hfl16 : s.flags &&& 0xffff = s.flags := by
    have h := Nat.and_pow_two_sub_one_eq_mod s.flags 16
    norm_num at h
    omega
  have hip16 : s.eip &&& 0xffff = s.eip := by
    have h := Nat.and_pow_two_sub_one_eq_mod s.eip 16
    norm_num at h
    omega
  have hb : ∀ v : Nat, v < 65536 →
      (v &&& 0xff) % 256 + 256 * (((v >>> 8) &&& 0xff) % 256) = v := by
    intro v hv
    rw [and_255_eq_mod, and_255_eq_mod, Nat.shiftRight_eq_div_pow]
    norm_num
    omega
  unfold realModeInterrupt RealCPU.push16 RealCPU.writePhys16 RealCPU.readPhys16
  dsimp only
  simp only [e1, e2, e3, hc1, hc2, hc3, if_true, ite_true, eq_self_iff_true]
  refine ⟨trivial, trivial, trivial, trivial, ?_, ?_, ?_, ?_, ?_⟩
  · rw [iteElse (by omega), iteElse (by omega), iteElse (by omega), iteElse (by omega),
      iteElse (by omega), iteElse (by omega), iteElse (by omega), iteElse (by omega),
      iteElse (by omega)]
    rw [hfl16]
    exact hb s.flags hfl
  · rw [iteElse (by omega), iteElse (by omega), iteElse (by omega), iteElse (by omega),
      iteElse (by omega)]
    exact hb s.cs hcs
  · rw [iteElse (by omega)]
    rw [hip16]
    exact hb s.eip hip
  · simp only [Nat.testBit_land]
    have h9 : Nat.testBit 0xFDFF 9 = false := by decide
    rw [h9]
    simp
  · simp only [Nat.testBit_land]
    have h8 : Nat.testBit 0xFEFF 8 = false := by decide
    rw [h8]
    simp

/-- The spec's seed scenario: IVT vector 0x21 points at F000:1234; the
machine is at CS=0x1111, IP=0x55, FLAGS=0x0302 (IF and TF set), SS:SP =
0000:1000. -/
def c4CPU : RealCPU :=
  { cs := 0x1111, eip := 0x55, ss := 0, sp := 0x1000, flags := 0x0302,
    mem := fun a =>
      if a = 0x84 then 0x34 else if a = 0x85 then 0x12
      else if a = 0x86 then 0x00 else if a = 0x87 then 0xF0 else 0,
    memSize := 0x100000 }

theorem c4_real_mode_interrupt_delivery_witness :
    (realModeInterrupt c4CPU 0x21).cs = 0xF000 ∧
    (realModeInterrupt c4CPU 0x21).eip = 0x1234 ∧
    (realModeInterrupt c4CPU 0x21).sp = 0x0FFA ∧
    (realModeInterrupt c4CPU 0x21).readPhys16 0xFFE = 0x0302 ∧
    (realModeInterrupt c4CPU 0x21).readPhys16 0xFFC = 0x1111 ∧
    (realModeInterrupt c4CPU 0x21).readPhys16 0xFFA = 0x55 ∧
    (realModeInterrupt c4CPU 0x21).flags.testBit 9 = false ∧
    (realModeInterrupt c4CPU 0x21).flags.testBit 8 = false := by
  obtain ⟨h1, h2, -, h4, h5, h6, h7, h8, h9⟩ :=
    c4_real_mode_interrupt_delivery c4CPU 0x21 (by decide) (by decide) (by decide)
      (by decide) (by decide) (by decide)
  exact ⟨h1, h2, h4, h5, h6, h7, h8, h9⟩

/-! ### Segment descriptors

Modelled from the spec (the `Descriptor` class hierarchy lives in headers
and Descriptor.cpp, which are not in src/): "Model descriptors as tagged
variants (code/data/system/gate/TSS) with a common base+limit+DPL header".
The fields mirror the accessors the embedded functions call. -/

structure CodeSegDesc where
  conforming : Bool
  readable : Bool
  dpl : Nat
  present : Bool
  is32 : Bool
  base : Nat
  effectiveLimit : Nat
  deriving DecidableEq, Repr

structure DataSegDesc where
  writable : Bool
  dpl : Nat
  present : Bool
  base : Nat
  effectiveLimit : Nat
  deriving DecidableEq, Repr

structure GateDesc where
  selector : Nat
  offset : Nat
  paramCount : Nat
  dpl : Nat
  present : Bool
  is32 : Bool
  deriving DecidableEq, Repr

structure TSSDesc where
  dpl : Nat
  present : Bool
  busy : Bool
  is32 : Bool
  deriving DecidableEq, Repr

inductive Descriptor where
  | nullDesc
  | outsideTableLimits
  | codeSeg (c : CodeSegDesc)
  | dataSeg (d : DataSegDesc)
  | callGate (g : GateDesc)
  | taskGate (g : GateDesc)
  | tssDesc (t : TSSDesc)
  | systemOther
  deriving DecidableEq, Repr

def Descriptor.is_null : Descriptor → Bool
  | .nullDesc => true
  | _ => false

def Descriptor.is_outside_table_limits : Descriptor → Bool
  | .outsideTableLimits => true
  | _ => false

def Descriptor.is_code : Descriptor → Bool
  | .codeSeg _ => true
  | _ => false

def Descriptor.is_data : Descriptor → Bool
  | .dataSeg _ => true
  | _ => false

def Descriptor.is_call_gate : Descriptor → Bool
  | .callGate _ => true
  | _ => false

def Descriptor.is_task_gate : Descriptor → Bool
  | .taskGate _ => true
  | _ => false

def Descriptor.is_tss : Descriptor → Bool
  | .tssDesc _ => true
  | _ => false

def Descriptor.is_gate : Descriptor → Bool
  | .callGate _ => true
  | .taskGate _ => true
  | _ => false

def Descriptor.is_nonconforming_code : Descriptor → Bool
  | .codeSeg c => !c.conforming
  | _ => false

def Descriptor.dpl : Descriptor → Nat
  | .codeSeg c => c.dpl
  | .dataSeg d => d.dpl
  | .callGate g => g.dpl
  | .taskGate g => g.dpl
  | .tssDesc t => t.dpl
  | _ => 0

def Descriptor.present : Descriptor → Bool
  | .codeSeg c => c.present
  | .dataSeg d => d.present
  | .callGate g => g.present
  | .taskGate g => g.present
  | .tssDesc t => t.present
  | _ => false

/-- `as_code_segment_descriptor()` (meaningful only when `is_code`). -/
def Descriptor.asCode : Descriptor → CodeSegDesc
  | .codeSeg c => c
  | _ => ⟨false, false, 0, false, false, 0, 0⟩

/-- `as_data_segment_descriptor()` (meaningful only when `is_data`). -/
def Descriptor.asData : Descriptor → DataSegDesc
  | .dataSeg d => d
  | _ => ⟨false, 0, false, 0, 0⟩

/-! ### Claim C5 — protected-mode far return (src/x86/CPU.cpp) -/

inductive SegReg where
  | es
  | fs
  | gs
  | ds
  deriving DecidableEq, Repr

/-- The protected-mode state slice used by `protected_far_return`:
CS:EIP, SS:ESP (with the cached SS base for stack reads), the cached CPL
(= CS RPL, per the spec invariant), the data segment registers with their
cached descriptors, the current operand size, the descriptor table (the
`get_descriptor` lookup) and linear memory for the stack. -/
structure RetCPU where
  cs : Nat
  eip : Nat
  ss : Nat
  esp : Nat
  cpl : Nat
  es : Nat
  fs : Nat
  gs : Nat
  ds : Nat
  esDesc : Descriptor
  fsDesc : Descriptor
  gsDesc : Descriptor
  dsDesc : Descriptor
  ssBase : Nat
  o32 : Bool
  descTable : Nat → Descriptor
  mem : Nat → Nat

def RetCPU.readLin16 (s : RetCPU) (a : Nat) : Nat :=
  s.mem a % 256 + 256 * (s.mem (a + 1) % 256)

def RetCPU.readLin32 (s : RetCPU) (a : Nat) : Nat :=
  s.mem a % 256 + 256 * (s.mem (a + 1) % 256) + 65536 * (s.mem (a + 2) % 256) +
    16777216 * (s.mem (a + 3) % 256)

/-- Modelled from the spec: `TransactionalPopper::pop_operand_sized_value`
— "a staging helper that reads multiple stack values ... without moving
SP": the value at SS:ESP displaced by the bytes already staged. -/
def popperValue (s : RetCPU) (consumed : Nat) : Nat :=
  if s.o32 then s.readLin32 (s.ssBase + s.esp + consumed)
  else s.readLin16 (s.ssBase + s.esp + consumed)

/-- The staged-offset growth of one operand-sized pop. -/
def popperStep (s : RetCPU) (consumed : Nat) : Nat :=
  if s.o32 then consumed + 4 else consumed + 2

def RetCPU.segSel (s : RetCPU) : SegReg → Nat
  | .es => s.es
  | .fs => s.fs
  | .gs => s.gs
  | .ds => s.ds

def RetCPU.segDesc (s : RetCPU) : SegReg → Descriptor
  | .es => s.esDesc
  | .fs => s.fsDesc
  | .gs => s.gsDesc
  | .ds => s.dsDesc

/-- Loading selector 0 into a data segment register: the selector becomes 0
and the cache is marked null (spec: "a selector with index 0 in a non-SS
register is legal but marks the cache null"). -/
def RetCPU.writeSegZero (s : RetCPU) : SegReg → RetCPU
  | .es => { s with es := 0, esDesc := .nullDesc }
  | .fs => { s with fs := 0, fsDesc := .nullDesc }
  | .gs => { s with gs := 0, gsDesc := .nullDesc }
  | .ds => { s with ds := 0, dsDesc := .nullDesc }

/-- `CPU::clear_segment_register_after_return_if_needed` (src/x86/CPU.cpp
line 819): a non-zero selector whose cached descriptor is null, or is data
or non-conforming code with DPL below the (new) CPL, is zeroed. -/
def clear_segment_register_after_return_if_needed (s : RetCPU) (r : SegReg) :
    RetCPU :=
  if s.segSel r = 0 then s
  else if (s.segDesc r).is_null ∨
      ((s.segDesc r).dpl < s.cpl ∧
        ((s.segDesc r).is_data ∨ (s.segDesc r).is_nonconforming_code)) then
    s.writeSegZero r
  else s

/-- The inner-ring path of `protected_far_return` (src/x86/CPU.cpp lines
896-918): pops the new ESP and SS through the popper (still relative to
the original ESP), loads SS:ESP, clears stale ES/FS/GS/DS, and finally —
because the CPL changed — applies the `RET n` stack adjustment again. -/
def protected_far_return_outer_ring (s1 : RetCPU)
    (consumed stack_adjustment originalCPL : Nat) : RetCPU :=
  let newESP := popperValue s1 consumed
  let c4 := popperStep s1 consumed
  let newSS := popperValue s1 c4 % 65536
  let s2 := { s1 with ss := newSS, esp := newESP }
  let s3 := clear_segment_register_after_return_if_needed s2 .es
  let s4 := clear_segment_register_after_return_if_needed s3 .fs
  let s5 := clear_segment_register_after_return_if_needed s4 .gs
  let s6 := clear_segment_register_after_return_if_needed s5 .ds
  if s6.cpl ≠ originalCPL then { s6 with esp := s6.esp + stack_adjustment }
  else s6

/-- `CPU::protected_far_return` (src/x86/CPU.cpp line 830). All pops are
staged through the transactional popper (`consumed` bytes); every
validation failure throws before any commit, leaving the state — in
particular SS:ESP — untouched. `set_cs` loads CS and, per the CPL = CS.RPL
invariant, the cached CPL. -/
def protected_far_return (s : RetCPU) (stack_adjustment : Nat) :
    Except Exn Unit × RetCPU :=
  let offset0 := popperValue s 0
  let c1 := popperStep s 0
  let selector := popperValue s c1 % 65536
  let c2 := popperStep s c1
  let originalCPL := s.cpl
  let selectorRPL := selector % 4
  let c3 := c2 + stack_adjustment
  let descriptor := s.descTable selector
  if descriptor.is_null then
    (.error (.generalProtectionFault 0), s)
  else if descriptor.is_outside_table_limits then
    (.error (.generalProtectionFault (selector &&& 0xfffc)), s)
  else if !descriptor.is_code then
    (.error (.generalProtectionFault (selector &&& 0xfffc)), s)
  else if selectorRPL < s.cpl then
    (.error (.generalProtectionFault (selector &&& 0xfffc)), s)
  else
    let codeSegment := descriptor.asCode
    if codeSegment.conforming ∧ codeSegment.dpl > selectorRPL then
      (.error (.generalProtectionFault (selector &&& 0xfffc)), s)
    else if ¬codeSegment.conforming ∧ codeSegment.dpl ≠ selectorRPL then
      (.error (.generalProtectionFault (selector &&& 0xfffc)), s)
    else if !codeSegment.present then
      (.error (.notPresent (selector &&& 0xfffc)), s)
    else
      let offset1 := if !codeSegment.is32 then offset0 &&& 0xffff else offset0
      if offset1 > codeSegment.effectiveLimit then
        (.error (.generalProtectionFault 0), s)
      else
        let s1 := { s with cs := selector, cpl := selector % 4, eip := offset1 }
        if selectorRPL > originalCPL then
          (.ok (), protected_far_return_outer_ring s1 c3 stack_adjustment originalCPL)
        else
          let s2 := { s1 with esp := s1.esp + c3 }
          if s2.cpl ≠ originalCPL then
            (.ok (), { s2 with esp := s2.esp + stack_adjustment })
          else
            (.ok (), s2)

/-- C5: whenever `protected_far_return` raises an exception during
validation (null selector, selector outside the table limit, non-code
target, RPL below CPL, conforming/non-conforming DPL rule violations,
non-present segment, or EIP beyond the limit), the whole state — in
particular SS and ESP — is exactly as it was before the RET: every pop was
only staged through the transactional popper and nothing was committed. -/
theorem c5_protected_far_return_state_untouched_on_fault (s : RetCPU)
    (stack_adjustment : Nat) :
    ∀ e s', protected_far_return s stack_adjustment = (.error e, s') →
      s' = s ∧ s'.esp = s.esp ∧ s'.ss = s.ss := by
  intro e s' hEq
  unfold protected_far_return at hEq
  dsimp only at hEq
  have hs : s' = s := by
    set sel := popperValue s (popperStep s 0) % 65536 with hselDef
    set desc := s.descTable sel with hdescDef
    set off0 := popperValue s 0 with hoffDef
    by_cases h1 : desc.is_null = true
    · rw [if_pos h1, Prod.mk.injEq] at hEq
      exact hEq.2.symm
    rw [if_neg h1] at hEq
    by_cases h2 : desc.is_outside_table_limits = true
    · rw [if_pos h2, Prod.mk.injEq] at hEq
      exact hEq.2.symm
    rw [if_neg h2] at hEq
    by_cases h3 : (!desc.is_code) = true
    · rw [if_pos h3, Prod.mk.injEq] at hEq
      exact hEq.2.symm
    rw [if_neg h3] at hEq
    by_cases h4 : sel % 4 < s.cpl
    · rw [if_pos h4, Prod.mk.injEq] at hEq
      exact hEq.2.symm
    rw [if_neg h4] at hEq
    by_cases h5 : desc.asCode.conforming = true ∧ desc.asCode.dpl > sel % 4
    · rw [if_pos h5, Prod.mk.injEq] at hEq
      exact hEq.2.symm
    rw [if_neg h5] at hEq
    by_cases h6 : ¬desc.asCode.conforming = true ∧ desc.asCode.dpl ≠ sel % 4
    · rw [if_pos h6, Prod.mk.injEq] at hEq
      exact hEq.2.symm
    rw [if_neg h6] at hEq
    by_cases h7 : (!desc.asCode.present) = true
    · rw [if_pos h7, Prod.mk.injEq] at hEq
      exact hEq.2.symm
    rw [if_neg h7] at hEq
    by_cases h8 : (if (!desc.asCode.is32) = true then off0 &&& 65535 else off0) >
        desc.asCode.effectiveLimit
    · rw [if_pos h8, Prod.mk.injEq] at hEq
      exact hEq.2.symm
    rw [if_neg h8] at hEq
    by_cases h9 : sel % 4 > s.cpl
    · rw [if_pos h9, Prod.mk.injEq] at hEq
      exact Except.noConfusion hEq.1
    rw [if_neg h9] at hEq
    by_cases h10 : sel % 4 ≠ s.cpl
    · rw [if_pos h10, Prod.mk.injEq] at hEq
      exact Except.noConfusion hEq.1
    rw [if_neg h10, Prod.mk.injEq] at hEq
    exact Except.noConfusion hEq.1
  exact ⟨hs, by rw [hs], by rw [hs]⟩

/-- A machine about to execute a far RET whose stack holds a null return
selector (all stack bytes zero). -/
def c5CPU : RetCPU :=
  { cs := 0x08, eip := 0x100, ss := 0x10, esp := 0x2000, cpl := 0,
    es := 0, fs := 0, gs := 0, ds := 0,
    esDesc := .nullDesc, fsDesc := .nullDesc, gsDesc := .nullDesc,
    dsDesc := .nullDesc, ssBase := 0, o32 := false,
    descTable := fun _ => .nullDesc, mem := fun _ => 0 }

theorem c5_protected_far_return_state_untouched_on_fault_witness :
    (protected_far_return c5CPU 0).2 = c5CPU ∧
    (protected_far_return c5CPU 0).2.esp = c5CPU.esp := by
  have h1 : (protected_far_return c5CPU 0).1 =
      .error (.generalProtectionFault 0) := by rfl
  have hEq : protected_far_return c5CPU 0 =
      (.error (.generalProtectionFault 0), (protected_far_return c5CPU 0).2) := by
    rw [← h1]
  have h := c5_protected_far_return_state_untouched_on_fault c5CPU 0
    (.generalProtectionFault 0) (protected_far_return c5CPU 0).2 hEq
  exact ⟨h.1, h.2.1⟩

/-! ### Claim C3 — protected-mode far CALL through a call gate
(src/x86/CPU.cpp, `CPU::protected_mode_far_jump`) -/

def Descriptor.asGate : Descriptor → GateDesc
  | .callGate g => g
  | .taskGate g => g
  | _ => ⟨0, 0, 0, 0, false, false⟩

def Descriptor.asTss : Descriptor → TSSDesc
  | .tssDesc t => t
  | _ => ⟨0, false, false, false⟩

/-- `JumpType`. -/
inductive JumpType where
  | call
  | retf
  | iret
  | intr
  | jmp
  | internal
  deriving DecidableEq, Repr

/-- `ValueSize` (WordSize / DWordSize). -/
inductive ValueSize where
  | word
  | dword
  deriving DecidableEq, Repr

def ValueSize.bytes : ValueSize → Nat
  | .word => 2
  | .dword => 4

/-- The protected-mode state slice used by `protected_mode_far_jump`:
CS:EIP, SS:ESP, the cached CPL (= CS RPL), the current operand size, the
descriptor table, the current TSS's inner-ring stack pointers
(`tss.get_ring_ss/get_ring_esp`), and the stack. The stack is modelled as
a list of (value, push size) pairs so that what was pushed, in which
order and with which width, is directly observable. -/
structure PMCPU where
  cs : Nat
  eip : Nat
  ss : Nat
  esp : Nat
  cpl : Nat
  o32 : Bool
  descTable : Nat → Descriptor
  ringSS : Nat → Nat
  ringESP : Nat → Nat
  stack : List (Nat × ValueSize)

/-- Modelled from the spec: `push_value_with_size` (header not in src/) —
pushes a value of the given bit size onto the current stack, decrementing
ESP by its byte count (32-bit wraparound). -/
def PMCPU.pushValueWithSize (s : PMCPU) (v : Nat) (sz : ValueSize) : PMCPU :=
  { s with
    esp := (s.esp + 4294967296 - sz.bytes) % 4294967296
    stack := (v, sz) :: s.stack }

/-- The step outcome of one `protected_mode_far_jump` invocation:
`enterGate` is the source's recursion `far_jump(gate.entry(), type, &gate)`
into the gate's target; `taskSwitch` is the hand-off to `task_switch`
(Tasking.cpp, outside this model); `assertNotReached` marks the source's
`ASSERT_NOT_REACHED()` paths (task gates, gate parameter counts). -/
inductive FJStep where
  | ok
  | fault (e : Exn)
  | taskSwitch (selector : Nat)
  | assertNotReached
  | enterGate (g : GateDesc)

/-- One invocation of `CPU::protected_mode_far_jump` (src/x86/CPU.cpp line
622), with the recursion through a call gate reified as `.enterGate`.
The tail of the source is three sequential ifs —
`if (type == CALL && gate) {...}`, `if (type == CALL) { push CS; EIP }`,
`if (!gate) set_cpl(originalCPL)` — flattened here into the five
reachable combinations. `set_cs` loads CS and, per the CPL = CS.RPL
invariant, the cached CPL; `set_cpl` (line 940) rewrites the CS RPL
bits. -/
def protected_mode_far_jump_step (s : PMCPU) (selector offset0 : Nat)
    (type : JumpType) (gate : Option GateDesc) : FJStep × PMCPU :=
  let pushSize : ValueSize :=
    match gate with
    | some g => if g.is32 then .dword else .word
    | none => if s.o32 then .dword else .word
  let originalSS := s.ss
  let originalESP := s.esp
  let originalCPL := s.cpl
  let originalCS := s.cs
  let originalEIP := s.eip
  let selectorRPL := selector % 4
  let descriptor := s.descTable selector
  if descriptor.is_null then
    (.fault (.generalProtectionFault 0), s)
  else if descriptor.is_outside_table_limits then
    (.fault (.generalProtectionFault (selector &&& 0xfffc)), s)
  else if !descriptor.is_code ∧ !descriptor.is_call_gate ∧
      !descriptor.is_task_gate ∧ !descriptor.is_tss then
    (.fault (.generalProtectionFault (selector &&& 0xfffc)), s)
  else if descriptor.is_gate ∧ gate.isSome then
    (.fault (.generalProtectionFault (selector &&& 0xfffc)), s)
  else if descriptor.is_task_gate then
    (.assertNotReached, s)
  else if descriptor.is_call_gate then
    let g := descriptor.asGate
    if g.paramCount ≠ 0 then (.assertNotReached, s)
    else if g.dpl < s.cpl then
      (.fault (.generalProtectionFault (selector &&& 0xfffc)), s)
    else if selectorRPL > g.dpl then
      (.fault (.generalProtectionFault (selector &&& 0xfffc)), s)
    else if !g.present then
      (.fault (.notPresent (selector &&& 0xfffc)), s)
    else
      (.enterGate g, s)
  else if descriptor.is_tss then
    let t := descriptor.asTss
    if t.dpl < s.cpl then
      (.fault (.generalProtectionFault (selector &&& 0xfffc)), s)
    else if t.dpl < selectorRPL then
      (.fault (.generalProtectionFault (selector &&& 0xfffc)), s)
    else if !t.present then
      (.fault (.notPresent (selector &&& 0xfffc)), s)
    else
      (.taskSwitch selector, s)
  else
    let codeSegment := descriptor.asCode
    if (type = .call ∨ type = .jmp) ∧ gate.isNone ∧ codeSegment.conforming ∧
        codeSegment.dpl > s.cpl then
      (.fault (.generalProtectionFault (selector &&& 0xfffc)), s)
    else if (type = .call ∨ type = .jmp) ∧ gate.isNone ∧ ¬codeSegment.conforming ∧
        selectorRPL > codeSegment.dpl then
      (.fault (.generalProtectionFault (selector &&& 0xfffc)), s)
    else if (type = .call ∨ type = .jmp) ∧ gate.isNone ∧ ¬codeSegment.conforming ∧
        codeSegment.dpl ≠ s.cpl then
      (.fault (.generalProtectionFault (selector &&& 0xfffc)), s)
    else
      let offset1 :=
        match gate with
        | some g => if !g.is32 then offset0 &&& 0xffff else offset0
        | none => offset0
      let offset2 := if !codeSegment.is32 then offset1 &&& 0xffff else offset1
      if !codeSegment.present then
        (.fault (.notPresent (selector &&& 0xfffc)), s)
      else if offset2 > codeSegment.effectiveLimit then
        (.fault (.generalProtectionFault 0), s)
      else
        let s2 := { s with cs := selector, cpl := selector % 4, eip := offset2 }
        if type = .call ∧ gate.isSome then
          if descriptor.dpl < originalCPL then
            let newSS := s2.ringSS descriptor.dpl
            let newESP := s2.ringESP descriptor.dpl
            let newSSDescriptor := s2.descTable newSS
            if newSSDescriptor.is_null then
              (.fault (.invalidTSS (newSS &&& 0xfffc)), s2)
            else if newSSDescriptor.is_outside_table_limits then
              (.fault (.invalidTSS (newSS &&& 0xfffc)), s2)
            else if newSSDescriptor.dpl ≠ descriptor.dpl then
              (.fault (.invalidTSS (newSS &&& 0xfffc)), s2)
            else if !newSSDescriptor.is_data ∨ !newSSDescriptor.asData.writable then
              (.fault (.invalidTSS (newSS &&& 0xfffc)), s2)
            else if !newSSDescriptor.present then
              (.fault (.stackFault (newSS &&& 0xfffc)), s2)
            else
              let s3 := { s2 with
                cs := (s2.cs &&& 0xFFFC) ||| descriptor.dpl
                cpl := descriptor.dpl }
              let s4 := { s3 with ss := newSS }
              let s5 := { s4 with esp := newESP }
              let s6 := s5.pushValueWithSize originalSS pushSize
              let s7 := s6.pushValueWithSize originalESP pushSize
              let s8 := s7.pushValueWithSize originalCS pushSize
              let s9 := s8.pushValueWithSize originalEIP pushSize
              (.ok, s9)
          else
            let s3 := { s2 with
              cs := (s2.cs &&& 0xFFFC) ||| originalCPL
              cpl := originalCPL }
            let s4 := s3.pushValueWithSize originalCS pushSize
            let s5 := s4.pushValueWithSize originalEIP pushSize
            (.ok, s5)
        else if type = .call then
          let s3 := s2.pushValueWithSize originalCS pushSize
          let s4 := s3.pushValueWithSize originalEIP pushSize
          let s5 := { s4 with
            cs := (s4.cs &&& 0xFFFC) ||| originalCPL
            cpl := originalCPL }
          (.ok, s5)
        else if gate.isNone then
          let s3 := { s2 with
            cs := (s2.cs &&& 0xFFFC) ||| originalCPL
            cpl := originalCPL }
          (.ok, s3)
        else
          (.ok, s2)

/-- `CPU::protected_mode_far_jump` including the one-level recursion
through a call gate (`far_jump(gate.entry(), type, &gate)` with PE=1 lands
back in `protected_mode_far_jump`); a second gate at the target faults
inside the step ("Gate-to-gate jumps are not allowed"), so re-entering at
most once is exact. -/
def protected_mode_far_jump (s : PMCPU) (selector offset : Nat)
    (type : JumpType) : FJStep × PMCPU :=
  match protected_mode_far_jump_step s selector offset type none with
  | (.enterGate g, s') =>
    match protected_mode_far_jump_step s' g.selector g.offset type (some g) with
    | (.enterGate _, s'') => (.assertNotReached, s'')
    | r => r
  | r => r

/-- The entry point offset a CALL through a gate lands on: masked to
16 bits when the gate is 16-bit, and again when the target code segment is
16-bit (as in the source). -/
def gateJumpOffset (g : GateDesc) (c : CodeSegDesc) : Nat :=
  let offset1 := if !g.is32 then g.offset &&& 0xffff else g.offset
  if !c.is32 then offset1 &&& 0xffff else offset1

/-- C3: a far CALL in protected mode through a call gate whose target code
segment has DPL below the current CPL (all gate and stack-segment checks
passing) switches to the inner-ring SS:ESP taken from the current TSS and
pushes exactly four values — old SS, old ESP, old CS, old EIP, in that
order — each with the gate's bit size, and does not push EFLAGS: the new
stack consists of precisely those four entries on top of the old one.
CPL becomes the target code segment's DPL and CS:EIP the gate's entry
point. -/
theorem c3_call_gate_escalation_pushes (s : PMCPU) (gsel off0 : Nat)
    (g : GateDesc) (c : CodeSegDesc) (dd : DataSegDesc)
    (hgate : s.descTable gsel = .callGate g)
    (hpc : g.paramCount = 0)
    (hgd : s.cpl ≤ g.dpl)
    (hrpl : gsel % 4 ≤ g.dpl)
    (hgp : g.present = true)
    (hcode : s.descTable g.selector = .codeSeg c)
    (hesc : c.dpl < s.cpl)
    (hcp : c.present = true)
    (hlim : gateJumpOffset g c ≤ c.effectiveLimit)
    (hnss : s.descTable (s.ringSS c.dpl) = .dataSeg dd)
    (hddDpl : dd.dpl = c.dpl)
    (hddW : dd.writable = true)
    (hddP : dd.present = true)
    (hespLo : 16 ≤ s.ringESP c.dpl)
    (hespHi : s.ringESP c.dpl < 4294967296) :
    (protected_mode_far_jump s gsel off0 .call).1 = .ok ∧
    (protected_mode_far_jump s gsel off0 .call).2.ss = s.ringSS c.dpl ∧
    (protected_mode_far_jump s gsel off0 .call).2.cpl = c.dpl ∧
    (protected_mode_far_jump s gsel off0 .call).2.cs =
      (g.selector &&& 0xFFFC) ||| c.dpl ∧
    (protected_mode_far_jump s gsel off0 .call).2.eip = gateJumpOffset g c ∧
    (protected_mode_far_jump s gsel off0 .call).2.stack =
      (s.eip, if g.is32 then ValueSize.dword else ValueSize.word) ::
      (s.cs, if g.is32 then ValueSize.dword else ValueSize.word) ::
      (s.esp, if g.is32 then ValueSize.dword else ValueSize.word) ::
      (s.ss, if g.is32 then ValueSize.dword else ValueSize.word) :: s.stack ∧
    (protected_mode_far_jump s gsel off0 .call).2.esp =
      s.ringESP c.dpl -
        4 * (if g.is32 then ValueSize.dword else ValueSize.word).bytes := by
  have hn1 : ¬g.dpl < s.cpl := by omega
  have hn2 : ¬gsel % 4 > g.dpl := by omega
  have hnd : ¬dd.dpl ≠ c.dpl := by omega
  have hlim' : ¬c.effectiveLimit <
      (if !c.is32 then (if !g.is32 then g.offset &&& 0xffff else g.offset) &&& 0xffff
       else (if !g.is32 then g.offset &&& 0xffff else g.offset)) :=
    Nat.not_lt.mpr hlim
  have hby : 2 ≤ (if g.is32 then ValueSize.dword else ValueSize.word).bytes ∧
      (if g.is32 then ValueSize.dword else ValueSize.word).bytes ≤ 4 := by
    cases g.is32 <;> simp [ValueSize.bytes]
  simp only [protected_mode_far_jump, protected_mode_far_jump_step,
    PMCPU.pushValueWithSize, gateJumpOffset,
    hgate, hcode, hnss,
    Descriptor.is_null, Descriptor.is_outside_table_limits, Descriptor.is_code,
    Descriptor.is_data, Descriptor.is_call_gate, Descriptor.is_task_gate,
    Descriptor.is_tss, Descriptor.is_gate, Descriptor.is_nonconforming_code,
    Descriptor.asGate, Descriptor.asCode, Descriptor.asData,
    Descriptor.dpl, Descriptor.present,
    hpc, hgp, hcp, hesc, hddW, hddP, hn1, hn2, hnd, hlim',
    Bool.not_true, Bool.not_false, Bool.false_eq_true, Bool.true_eq_false,
    Option.isSome_some, Option.isNone_some, Option.isSome_none,
    Option.isNone_none, ne_eq, reduceCtorEq,
    ite_true, ite_false, if_true, if_false,
    true_and, and_true, false_and, and_false, true_or, or_true, false_or,
    or_false, not_true, not_false_iff, eq_self_iff_true]
  generalize (if g.is32 = true then ValueSize.dword else ValueSize.word).bytes = b
    at hby ⊢
  omega

/-- 32-bit call gate at selector 0x20: target 0x08:0x100, DPL 3, present. -/
def c3Gate : GateDesc := ⟨0x08, 0x100, 0, 3, true, true⟩

/-- Ring-0 non-conforming 32-bit code segment at selector 0x08. -/
def c3Code : CodeSegDesc := ⟨false, true, 0, true, true, 0, 0xFFFF⟩

/-- Ring-0 writable data segment at selector 0x10 (the inner-ring stack). -/
def c3Data : DataSegDesc := ⟨true, 0, true, 0, 0xFFFF⟩

/-- Ring-3 machine about to CALL FAR through the gate at 0x20; the TSS
supplies ring-0 stack 0x10:0x2000. -/
def c3CPU : PMCPU where
  cs := 0x23
  eip := 0x1111
  ss := 0x18
  esp := 0x3000
  cpl := 3
  o32 := false
  descTable := fun n =>
    if n = 0x20 then .callGate c3Gate
    else if n = 0x08 then .codeSeg c3Code
    else if n = 0x10 then .dataSeg c3Data
    else .nullDesc
  ringSS := fun _ => 0x10
  ringESP := fun _ => 0x2000
  stack := []

/-- Witness for C3: the concrete ring-3 → ring-0 CALL through the gate
lands at 0x08:0x100 with CPL 0 on stack 0x10:0x1FF0, the new stack holding
exactly old SS, ESP, CS, EIP as 32-bit values (EFLAGS absent). -/
theorem c3_call_gate_escalation_pushes_witness :
    (protected_mode_far_jump c3CPU 0x20 0 .call).1 = .ok ∧
    (protected_mode_far_jump c3CPU 0x20 0 .call).2.ss = 0x10 ∧
    (protected_mode_far_jump c3CPU 0x20 0 .call).2.cpl = 0 ∧
    (protected_mode_far_jump c3CPU 0x20 0 .call).2.cs = 0x08 ∧
    (protected_mode_far_jump c3CPU 0x20 0 .call).2.eip = 0x100 ∧
    (protected_mode_far_jump c3CPU 0x20 0 .call).2.stack =
      [(0x1111, ValueSize.dword), (0x23, ValueSize.dword),
       (0x3000, ValueSize.dword), (0x18, ValueSize.dword)] ∧
    (protected_mode_far_jump c3CPU 0x20 0 .call).2.esp = 0x1FF0 := by
  have h := c3_call_gate_escalation_pushes c3CPU 0x20 0 c3Gate c3Code c3Data
    rfl rfl (by decide) (by decide) rfl rfl (by decide) rfl (by decide)
    rfl rfl rfl rfl (by decide) (by decide)
  exact ⟨h.1, h.2.1, h.2.2.1, h.2.2.2.1, h.2.2.2.2.1, h.2.2.2.2.2.1,
    h.2.2.2.2.2.2⟩

end Vomit
